import Mathlib

/-!
# ILI9488 MIPI-DSI panel driver: the panel life-cycle callbacks

Shallow embedding of `drivers/gpu/drm/panel/panel-ilitek-ili9488.c`.

* The driver context `struct ili9488` keeps the two flags `prepared` and
  `enabled` and whether a reset GPIO was found (`reset_gpio` non-NULL).
* Every call into a collaborator (GPIO, regulator, DSI bus, backlight, delay)
  is recorded, in program order, as an `Event`: the call itself (`Op`) and,
  for the calls that return an `int`, the value that came back.
* The values coming back from the collaborators during one callback are
  supplied by an `Outcomes` record; they are arbitrary integers. A value is
  taken as it sits in the driver's `int ret`: the callbacks only compare it
  with 0 and hand it back, so no width is attached to it.
* Each callback is a function from the outcomes and the context to a `Result`:
  the returned `int`, the context afterwards and the events of the call.
* `ili9488_get_modes` is embedded with the mode it hands to the connector;
  constants of kernel headers it needs are parameters (`KernelConsts`).

Diagnostics (`dev_err`, `DRM_WARN`, `printk`) have no effect on the flags or on
the collaborators and are left out.
-/

namespace Ili9488

/-! ## Manufacturer command set -/

def ILI9488_CMD_INTERFACEMODECTRL : Nat := 0xb0
def ILI9488_CMD_FRAMERATECTRL : Nat := 0xb1
def ILI9488_CMD_DISPLAYINVERSIONCTRL : Nat := 0xb4
def ILI9488_CMD_DISPLAYFUNCTIONCTRL : Nat := 0xb6
def ILI9488_CMD_POWERCONTROL1 : Nat := 0xc0
def ILI9488_CMD_POWERCONTROL2 : Nat := 0xc1
def ILI9488_CMD_VCOMCONTROL : Nat := 0xc5
def ILI9488_CMD_POSITIVEGAMMA : Nat := 0xe0
def ILI9488_CMD_NEGATIVEGAMMA : Nat := 0xe1
def ILI9488_CMD_SETIMAGEFUNCTION : Nat := 0xe9
def ILI9488_CMD_ADJUSTCONTROL3 : Nat := 0xf7

/-- Command byte of a DCS write. The manufacturer commands are the numeric
`ILI9488_CMD_*` codes of the driver; the `MIPI_DCS_*` codes are defined in
`video/mipi_display.h`, outside the driver, and are kept symbolic. -/
inductive DcsCmd
  | code (c : Nat)
  | MIPI_DCS_SET_ADDRESS_MODE
  | MIPI_DCS_SET_PIXEL_FORMAT
  | MIPI_DCS_ENTER_INVERT_MODE
  deriving DecidableEq

/-- Calls made by the driver into its collaborators. -/
inductive Op
  | gpiod_set_value_cansleep (value : Nat)
  | mdelay (msecs : Nat)
  | msleep (msecs : Nat)
  | regulator_enable
  | regulator_disable
  | mipi_dsi_dcs_write (cmd : DcsCmd) (data : List Nat)
  | mipi_dsi_dcs_exit_sleep_mode
  | mipi_dsi_dcs_enter_sleep_mode
  | mipi_dsi_dcs_set_display_on
  | mipi_dsi_dcs_set_display_off
  | backlight_enable
  | backlight_disable
  deriving DecidableEq

/-- One collaborator call together with the `int` it returned to the driver
(`none` for the calls whose result the embedding does not follow: the `void`
ones, `regulator_disable` and the backlight calls). -/
structure Event where
  op : Op
  ret : Option Int
  deriving DecidableEq

/-- Values returned by the collaborators during one callback. `write_seq k` is
the value of `ret` in the `k`-th expansion (counted from 0) of the macro
`dsi_dcs_write_seq` inside `ili9488_init_sequence`. -/
structure Outcomes where
  regulator_enable : Int
  exit_sleep_mode : Int
  write_seq : Nat → Int
  enter_invert_mode : Int
  set_display_on : Int
  set_display_off : Int
  enter_sleep_mode : Int

/-- Driver context: the fields of `struct ili9488` the callbacks read or write.
`reset_gpio` is true when the descriptor pointer is non-NULL. -/
structure ili9488 where
  reset_gpio : Bool
  prepared : Bool
  enabled : Bool
  deriving DecidableEq

/-- Outcome of one callback. -/
structure Result where
  ret : Int
  ctx : ili9488
  trace : List Event

/-- A call that hands nothing back to the driver. -/
def call (op : Op) : Event := ⟨op, none⟩

/-- The calls of a trace, without the returned values. -/
def ops (t : List Event) : List Op := t.map Event.op

/-- Calls that put a command on the DSI bus. -/
def Op.isBusWrite : Op → Bool
  | .mipi_dsi_dcs_write _ _ => true
  | .mipi_dsi_dcs_exit_sleep_mode => true
  | .mipi_dsi_dcs_enter_sleep_mode => true
  | .mipi_dsi_dcs_set_display_on => true
  | .mipi_dsi_dcs_set_display_off => true
  | _ => false

/-- Calls on the `mipi_dsi_dcs_write` entry point (the register programming). -/
def Op.isDcsWrite : Op → Bool
  | .mipi_dsi_dcs_write _ _ => true
  | _ => false

/-- Calls on the backlight device. -/
def Op.isBacklight : Op → Bool
  | .backlight_enable => true
  | .backlight_disable => true
  | _ => false

/-! ## The init sequence -/

/-- The thirteen `dsi_dcs_write_seq(dsi, cmd, seq...)` lines of
`ili9488_init_sequence`, in program order: command and payload `d[]`. -/
def init_table : List (DcsCmd × List Nat) :=
  [ (.code ILI9488_CMD_POSITIVEGAMMA,
      [0x00, 0x13, 0x18, 0x04, 0x0f, 0x06, 0x3a, 0x56,
       0x4d, 0x03, 0x0a, 0x06, 0x30, 0x3e, 0x0f]),
    (.code ILI9488_CMD_NEGATIVEGAMMA,
      [0x00, 0x13, 0x18, 0x01, 0x11, 0x06, 0x38, 0x34,
       0x4d, 0x06, 0x0d, 0x0b, 0x31, 0x37, 0x0f]),
    (.code ILI9488_CMD_POWERCONTROL1, [0x18, 0x17]),
    (.code ILI9488_CMD_POWERCONTROL2, [0x41]),
    (.code ILI9488_CMD_VCOMCONTROL, [0x00, 0x1a, 0x80]),
    (.MIPI_DCS_SET_ADDRESS_MODE, [0x48]),
    (.MIPI_DCS_SET_PIXEL_FORMAT, [0x55]),
    (.code ILI9488_CMD_INTERFACEMODECTRL, [0x00]),
    (.code ILI9488_CMD_FRAMERATECTRL, [0xa0]),
    (.code ILI9488_CMD_DISPLAYINVERSIONCTRL, [0x02]),
    (.code ILI9488_CMD_DISPLAYFUNCTIONCTRL, [0x20, 0x02]),
    (.code ILI9488_CMD_SETIMAGEFUNCTION, [0x00]),
    (.code ILI9488_CMD_ADJUSTCONTROL3, [0xa9, 0x51, 0x2c, 0x82]) ]

/-- The macro `dsi_dcs_write_seq`, run over consecutive lines: line `k` calls
`mipi_dsi_dcs_write` and, when `ret < 0`, returns `ret` from the enclosing
function (`some ret`); `none` means that control fell through every line. -/
def dsi_dcs_write_seq (rets : Nat → Int) :
    Nat → List (DcsCmd × List Nat) → Option Int × List Event
  | _, [] => (none, [])
  | k, (cmd, d) :: rest =>
    let ret := rets k
    let e : Event := ⟨Op.mipi_dsi_dcs_write cmd d, some ret⟩
    if ret < 0 then (some ret, [e])
    else
      let r := dsi_dcs_write_seq rets (k + 1) rest
      (r.1, e :: r.2)

/-- Embedding of `ili9488_init_sequence`: the thirteen checked writes, then the
unchecked `MIPI_DCS_ENTER_INVERT_MODE` write, then `return 0`. -/
def ili9488_init_sequence (o : Outcomes) : Int × List Event :=
  match dsi_dcs_write_seq o.write_seq 0 init_table with
  | (some ret, t) => (ret, t)
  | (none, t) =>
    (0, t ++ [⟨Op.mipi_dsi_dcs_write .MIPI_DCS_ENTER_INVERT_MODE [],
               some o.enter_invert_mode⟩])

/-! ## The panel callbacks -/

/-- Embedding of `ili9488_disable`. -/
def ili9488_disable (ctx : ili9488) : Result :=
  if !ctx.enabled then ⟨0, ctx, []⟩
  else ⟨0, { ctx with enabled := false }, [call Op.backlight_disable]⟩

/-- Embedding of `ili9488_unprepare`. -/
def ili9488_unprepare (o : Outcomes) (ctx : ili9488) : Result :=
  if !ctx.prepared then ⟨0, ctx, []⟩
  else
    let ret := o.set_display_off
    let t1 : List Event := [⟨Op.mipi_dsi_dcs_set_display_off, some ret⟩]
    if ret ≠ 0 then ⟨ret, ctx, t1⟩
    else
      let t2 := t1 ++ [call (Op.mdelay 10)]
      let ret := o.enter_sleep_mode
      let t3 := t2 ++ [⟨Op.mipi_dsi_dcs_enter_sleep_mode, some ret⟩]
      if ret ≠ 0 then ⟨ret, ctx, t3⟩
      else
        let t4 := t3 ++ [call (Op.mdelay 10)]
        let t5 := t4 ++ [call Op.regulator_disable]
        ⟨0, { ctx with prepared := false }, t5⟩

/-- Embedding of `ili9488_prepare`. -/
def ili9488_prepare (o : Outcomes) (ctx : ili9488) : Result :=
  if ctx.prepared then ⟨0, ctx, []⟩
  else
    let t1 : List Event :=
      if ctx.reset_gpio then
        [call (Op.gpiod_set_value_cansleep 0), call (Op.gpiod_set_value_cansleep 1)]
      else []
    let t2 := t1 ++ [call (Op.mdelay 20)]
    let ret := o.regulator_enable
    let t3 := t2 ++ [⟨Op.regulator_enable, some ret⟩]
    if ret < 0 then ⟨ret, ctx, t3⟩
    else
      let t4 := t3 ++ [call (Op.mdelay 120)]
      let t5 := t4 ++
        (if ctx.reset_gpio then
          [call (Op.gpiod_set_value_cansleep 0), call (Op.mdelay 20)]
        else [])
      let ret := o.exit_sleep_mode
      let t6 := t5 ++ [⟨Op.mipi_dsi_dcs_exit_sleep_mode, some ret⟩]
      if ret < 0 then ⟨ret, ctx, t6⟩
      else
        let r := ili9488_init_sequence o
        let ret := r.1
        let t7 := t6 ++ r.2
        if ret ≠ 0 then ⟨ret, ctx, t7⟩
        else
          let ret := o.set_display_on
          let t8 := t7 ++ [⟨Op.mipi_dsi_dcs_set_display_on, some ret⟩]
          if ret < 0 then ⟨ret, ctx, t8⟩
          else
            let t9 := t8 ++ [call (Op.msleep 50)]
            ⟨0, { ctx with prepared := true }, t9⟩

/-- Embedding of `ili9488_enable`. -/
def ili9488_enable (ctx : ili9488) : Result :=
  if ctx.enabled then ⟨0, ctx, []⟩
  else ⟨0, { ctx with enabled := true }, [call Op.backlight_enable]⟩

/-! ## The published mode -/

/-- The fields of `struct drm_display_mode` the driver initialises or writes.
The `name` field is filled in by `drm_mode_set_name` of the DRM core and is not
followed. -/
structure drm_display_mode where
  hdisplay : Nat
  hsync_start : Nat
  hsync_end : Nat
  htotal : Nat
  vdisplay : Nat
  vsync_start : Nat
  vsync_end : Nat
  vtotal : Nat
  vrefresh : Nat
  clock : Nat
  width_mm : Nat
  height_mm : Nat
  type : Nat
  deriving DecidableEq

/-- The constant `default_mode`; `type` is not named in the initialiser of the
static object and is therefore zero. -/
def default_mode : drm_display_mode :=
  { hdisplay := 320
    hsync_start := 320 + 130
    hsync_end := 320 + 130 + 4
    htotal := 320 + 130 + 4 + 130
    vdisplay := 480
    vsync_start := 480 + 2
    vsync_end := 480 + 2 + 1
    vtotal := 480 + 2 + 1 + 2
    vrefresh := 60
    clock := 17000
    width_mm := 42
    height_mm := 82
    type := 0 }

/-- Constants of kernel headers outside the driver, taken as parameters. -/
structure KernelConsts where
  ENOMEM : Int
  DRM_MODE_TYPE_DRIVER : Nat
  DRM_MODE_TYPE_PREFERRED : Nat

/-- What `ili9488_get_modes` leaves behind: the returned `int`, the driver
context, the mode handed to `drm_mode_probed_add` (if any) and the
`width_mm`, `height_mm` written into the connector's `display_info` (if any). -/
structure ModesResult where
  ret : Int
  ctx : ili9488
  probed_mode : Option drm_display_mode
  display_info : Option (Nat × Nat)

/-- Embedding of `ili9488_get_modes`. `duplicated` tells whether
`drm_mode_duplicate` handed back a copy of `default_mode` (true) or NULL. -/
def ili9488_get_modes (K : KernelConsts) (duplicated : Bool) (ctx : ili9488) : ModesResult :=
  if !duplicated then ⟨-K.ENOMEM, ctx, none, none⟩
  else
    let mode : drm_display_mode := default_mode
    let mode := { mode with type := K.DRM_MODE_TYPE_DRIVER ||| K.DRM_MODE_TYPE_PREFERRED }
    ⟨1, ctx, some mode, some (mode.width_mm, mode.height_mm)⟩

/-! ## Sequences of callbacks -/

/-- The four life-cycle callbacks of `ili9488_drm_funcs`. -/
inductive Callback
  | prepare
  | enable
  | disable
  | unprepare
  deriving DecidableEq

/-- One callback invocation on the context. -/
def dispatch (c : Callback) (o : Outcomes) (ctx : ili9488) : Result :=
  match c with
  | .prepare => ili9488_prepare o ctx
  | .enable => ili9488_enable ctx
  | .disable => ili9488_disable ctx
  | .unprepare => ili9488_unprepare o ctx

/-- Context after a finite sequence of callbacks, each with its own collaborator
outcomes. -/
def run : List (Callback × Outcomes) → ili9488 → ili9488
  | [], ctx => ctx
  | (c, o) :: rest, ctx => run rest (dispatch c o ctx).ctx

/-- Events of a finite sequence of callbacks, in program order. -/
def runTrace : List (Callback × Outcomes) → ili9488 → List Event
  | [], _ => []
  | (c, o) :: rest, ctx =>
    (dispatch c o ctx).trace ++ runTrace rest (dispatch c o ctx).ctx

/-- Context left by `ili9488_probe` (`devm_kzalloc` zeroes both flags). -/
def probed (reset_gpio : Bool) : ili9488 := ⟨reset_gpio, false, false⟩

/-- Outcomes in which every collaborator reports success. -/
def allOk : Outcomes := ⟨0, 0, fun _ => 0, 0, 0, 0, 0⟩

/-! ## Vocabulary of the statements -/

/-- The `mipi_dsi_dcs_write` calls of the given lines of the init table. -/
def writeOps (tbl : List (DcsCmd × List Nat)) : List Op :=
  tbl.map (fun p => Op.mipi_dsi_dcs_write p.1 p.2)

/-- Events of the lines of `dsi_dcs_write_seq` when every one of them is
reached, line numbers starting at `k`. -/
def seqEvents (rets : Nat → Int) : Nat → List (DcsCmd × List Nat) → List Event
  | _, [] => []
  | k, (cmd, d) :: rest =>
    ⟨Op.mipi_dsi_dcs_write cmd d, some (rets k)⟩ :: seqEvents rets (k + 1) rest

/-- The unchecked last write of `ili9488_init_sequence`. -/
def invertOp : Op := Op.mipi_dsi_dcs_write .MIPI_DCS_ENTER_INVERT_MODE []

/-- Number of payload bytes of a `mipi_dsi_dcs_write` call (0 for other calls). -/
def Op.payloadLength : Op → Nat
  | .mipi_dsi_dcs_write _ d => d.length
  | _ => 0

/-- An op of the power-up phase: neither a bus write nor the supply enable. -/
def Op.isQuiet (x : Op) : Bool := !x.isBusWrite && decide (x ≠ Op.regulator_enable)

/-- Outcomes in which the third checked write of the init sequence fails with
`-EIO` and everything else succeeds. -/
def thirdWriteFails : Outcomes := { allOk with write_seq := fun k => if k = 2 then -5 else 0 }

/-- Outcomes in which the display-off command fails with `-EIO`. -/
def displayOffFails : Outcomes := { allOk with set_display_off := -5 }

/-- Outcomes in which the enter-sleep-mode command fails with `-EIO`. -/
def enterSleepFails : Outcomes := { allOk with enter_sleep_mode := -5 }

/-- Outcomes in which the regulator answers `-EPROBE_DEFER`. -/
def supplyDeferred : Outcomes := { allOk with regulator_enable := -517 }

/-- Outcomes in which only the unchecked invert-mode write fails. -/
def invertFails : Outcomes := { allOk with enter_invert_mode := -5 }

/-- The calling order the DRM core is expected to follow: `enable` only on a
prepared panel and `unprepare` only on a panel that is not enabled. -/
def ordered : List (Callback × Outcomes) → ili9488 → Bool
  | [], _ => true
  | (c, o) :: rest, ctx =>
    (match c with
      | .enable => ctx.prepared
      | .unprepare => !ctx.enabled
      | _ => true) && ordered rest (dispatch c o ctx).ctx

/-- Calls on the reset GPIO. -/
def Op.isReset : Op → Bool
  | .gpiod_set_value_cansleep _ => true
  | _ => false

/-- Length of a delay call (`mdelay` or `msleep`), in milliseconds. -/
def Op.delay? : Op → Option Nat
  | .mdelay n => some n
  | .msleep n => some n
  | _ => none

/-- A `regulator_enable` call that returned a non-negative value. -/
def Event.isSupplyOn (e : Event) : Bool :=
  match e.op, e.ret with
  | .regulator_enable, some v => decide (0 ≤ v)
  | _, _ => false

/-- Number of successful supply enables in a trace. -/
def supplyOn (t : List Event) : Nat := t.countP Event.isSupplyOn

/-- Number of supply disables in a trace. -/
def supplyOff (t : List Event) : Nat := (ops t).count Op.regulator_disable

/-- The backlight calls of a trace, in order. -/
def backlightOps (t : List Event) : List Op := (ops t).filter Op.isBacklight

/-- A list of backlight calls that strictly alternates, given whether the
backlight is lit before the first of them: the next call must be
`backlight_disable` when lit and `backlight_enable` when dark. -/
def alternates : Bool → List Op → Bool
  | _, [] => true
  | lit, x :: rest =>
    (if lit then decide (x = Op.backlight_disable) else decide (x = Op.backlight_enable))
      && alternates (!lit) rest

/-- One for a set flag, zero for a clear one. -/
def flag (b : Bool) : Nat := if b then 1 else 0

/-- The calls of a successful `ili9488_prepare` on a panel with a reset line,
as the life cycle describes them. -/
def fullPrepareOps : List Op :=
  [Op.gpiod_set_value_cansleep 0, Op.gpiod_set_value_cansleep 1, Op.mdelay 20,
   Op.regulator_enable, Op.mdelay 120, Op.gpiod_set_value_cansleep 0, Op.mdelay 20,
   Op.mipi_dsi_dcs_exit_sleep_mode] ++ writeOps init_table ++
  [invertOp, Op.mipi_dsi_dcs_set_display_on, Op.msleep 50]

/-- Outcomes in which the exit-sleep-mode command fails with `-EIO`. -/
def exitSleepFails : Outcomes := { allOk with exit_sleep_mode := -5 }

/-- Outcomes in which the display-on command fails with `-EIO`. -/
def displayOnFails : Outcomes := { allOk with set_display_on := -5 }

theorem prepare_of_prepared (o : Outcomes) (ctx : ili9488) (h : ctx.prepared = true) :
    ili9488_prepare o ctx = ⟨0, ctx, []⟩ := by
  simp [ili9488_prepare, h]

theorem prepare_ret_zero (o : Outcomes) (ctx : ili9488)
    (h : (ili9488_prepare o ctx).ret = 0) :
    (ili9488_prepare o ctx).ctx.prepared = true := by
  by_cases hp : ctx.prepared = true
  · simp [ili9488_prepare, hp]
  by_cases h1 : o.regulator_enable < 0
  · simp [ili9488_prepare, hp, h1] at h; omega
  by_cases h2 : o.exit_sleep_mode < 0
  · simp [ili9488_prepare, hp, h1, h2] at h; omega
  by_cases h3 : (ili9488_init_sequence o).1 = 0
  · by_cases h4 : o.set_display_on < 0
    · simp [ili9488_prepare, hp, h1, h2, h3, h4] at h; omega
    · simp [ili9488_prepare, hp, h1, h2, h3, h4]
  · simp [ili9488_prepare, hp, h1, h2, h3] at h

/-! ## The checked writes of the init sequence -/

theorem ops_append (a b : List Event) : ops (a ++ b) = ops a ++ ops b := by
  simp [ops]

theorem ops_seqEvents (rets : Nat → Int) (tbl : List (DcsCmd × List Nat)) (k : Nat) :
    ops (seqEvents rets k tbl) = writeOps tbl := by
  induction tbl generalizing k with
  | nil => rfl
  | cons p rest ih =>
    obtain ⟨cmd, d⟩ := p
    have := ih (k + 1)
    simp only [ops, writeOps, seqEvents, List.map_cons] at this ⊢
    rw [this]

theorem write_seq_ok (rets : Nat → Int) (tbl : List (DcsCmd × List Nat)) (k : Nat)
    (h : ∀ j, j < tbl.length → 0 ≤ rets (k + j)) :
    dsi_dcs_write_seq rets k tbl = (none, seqEvents rets k tbl) := by
  induction tbl generalizing k with
  | nil => rfl
  | cons p rest ih =>
    obtain ⟨cmd, d⟩ := p
    have h0 : ¬ rets k < 0 := by
      have := h 0 (by simp)
      simpa using this
    have hrest : ∀ j, j < rest.length → 0 ≤ rets (k + 1 + j) := by
      intro j hj
      have := h (j + 1) (by simpa using hj)
      rwa [show k + 1 + j = k + (j + 1) by omega]
    simp [dsi_dcs_write_seq, seqEvents, h0, ih (k + 1) hrest]

theorem write_seq_fail (rets : Nat → Int) (tbl : List (DcsCmd × List Nat)) (k n : Nat)
    (hn : n < tbl.length) (hok : ∀ j, j < n → 0 ≤ rets (k + j)) (hfail : rets (k + n) < 0) :
    dsi_dcs_write_seq rets k tbl =
      (some (rets (k + n)), seqEvents rets k (tbl.take (n + 1))) := by
  induction tbl generalizing k n with
  | nil => simp at hn
  | cons p rest ih =>
    obtain ⟨cmd, d⟩ := p
    cases n with
    | zero =>
      have hf : rets k < 0 := by simpa using hfail
      simp [dsi_dcs_write_seq, seqEvents, hf]
    | succ m =>
      have h0 : ¬ rets k < 0 := by
        have := hok 0 (by omega)
        simpa using this
      have hm : m < rest.length := by simpa using hn
      have hok2 : ∀ j, j < m → 0 ≤ rets (k + 1 + j) := by
        intro j hj
        have := hok (j + 1) (by omega)
        rwa [show k + 1 + j = k + (j + 1) by omega]
      have hfail2 : rets (k + 1 + m) < 0 := by
        rwa [show k + 1 + m = k + (m + 1) by omega]
      have := ih (k + 1) m hm hok2 hfail2
      simp only [dsi_dcs_write_seq, h0, if_false, this, List.take_succ_cons, seqEvents]
      rw [show k + 1 + m = k + (m + 1) by omega]

theorem write_seq_some_neg (rets : Nat → Int) (tbl : List (DcsCmd × List Nat)) (k : Nat)
    (r : Int) (h : (dsi_dcs_write_seq rets k tbl).1 = some r) : r < 0 := by
  induction tbl generalizing k with
  | nil => simp [dsi_dcs_write_seq] at h
  | cons p rest ih =>
    obtain ⟨cmd, d⟩ := p
    by_cases h0 : rets k < 0
    · simp [dsi_dcs_write_seq, h0] at h
      omega
    · simp only [dsi_dcs_write_seq, h0, if_false] at h
      exact ih (k + 1) h

theorem write_seq_none (rets : Nat → Int) (tbl : List (DcsCmd × List Nat)) (k : Nat)
    (h : (dsi_dcs_write_seq rets k tbl).1 = none) :
    ∀ j, j < tbl.length → 0 ≤ rets (k + j) := by
  induction tbl generalizing k with
  | nil => intro j hj; simp at hj
  | cons p rest ih =>
    obtain ⟨cmd, d⟩ := p
    by_cases h0 : rets k < 0
    · simp [dsi_dcs_write_seq, h0] at h
    · simp only [dsi_dcs_write_seq, h0, if_false] at h
      intro j hj
      cases j with
      | zero => simpa using h0
      | succ i =>
        have := ih (k + 1) h i (by simpa using hj)
        rwa [show k + 1 + i = k + (i + 1) by omega] at this

theorem init_table_length : init_table.length = 13 := rfl

theorem init_sequence_ok (o : Outcomes) (h : ∀ k, k < 13 → 0 ≤ o.write_seq k) :
    ili9488_init_sequence o =
      (0, seqEvents o.write_seq 0 init_table ++ [⟨invertOp, some o.enter_invert_mode⟩]) := by
  have hw := write_seq_ok o.write_seq init_table 0 (by
    intro j hj
    rw [init_table_length] at hj
    simpa using h j hj)
  simp [ili9488_init_sequence, hw, invertOp]

theorem init_sequence_fail (o : Outcomes) (n : Nat) (hn : n < 13)
    (hok : ∀ k, k < n → 0 ≤ o.write_seq k) (hfail : o.write_seq n < 0) :
    ili9488_init_sequence o =
      (o.write_seq n, seqEvents o.write_seq 0 (init_table.take (n + 1))) := by
  have hw := write_seq_fail o.write_seq init_table 0 n (by rw [init_table_length]; exact hn)
    (by intro j hj; simpa using hok j hj) (by simpa using hfail)
  simp only [Nat.zero_add] at hw
  simp [ili9488_init_sequence, hw]

theorem init_sequence_ret_zero (o : Outcomes) (h : (ili9488_init_sequence o).1 = 0) :
    ∀ k, k < 13 → 0 ≤ o.write_seq k := by
  unfold ili9488_init_sequence at h
  rcases hw : dsi_dcs_write_seq o.write_seq 0 init_table with ⟨r, t⟩
  cases r with
  | some v =>
    have hneg := write_seq_some_neg o.write_seq init_table 0 v (by rw [hw])
    rw [hw] at h
    simp at h
    omega
  | none =>
    have := write_seq_none o.write_seq init_table 0 (by rw [hw])
    intro k hk
    simpa using this k (by rw [init_table_length]; exact hk)

/-! ## Normal forms of `ili9488_prepare` -/

theorem ops_nil : ops [] = [] := rfl

theorem ops_cons (e : Event) (t : List Event) : ops (e :: t) = e.op :: ops t := rfl

theorem prepare_success (o : Outcomes) (ctx : ili9488) (hp : ctx.prepared = false)
    (h1 : 0 ≤ o.regulator_enable) (h2 : 0 ≤ o.exit_sleep_mode)
    (h3 : ∀ k, k < 13 → 0 ≤ o.write_seq k) (h4 : 0 ≤ o.set_display_on) :
    (ili9488_prepare o ctx).ret = 0 ∧
    (ili9488_prepare o ctx).ctx = { ctx with prepared := true } ∧
    ops (ili9488_prepare o ctx).trace =
      (if ctx.reset_gpio then
        [Op.gpiod_set_value_cansleep 0, Op.gpiod_set_value_cansleep 1] else []) ++
      [Op.mdelay 20, Op.regulator_enable, Op.mdelay 120] ++
      (if ctx.reset_gpio then [Op.gpiod_set_value_cansleep 0, Op.mdelay 20] else []) ++
      [Op.mipi_dsi_dcs_exit_sleep_mode] ++ writeOps init_table ++
      [invertOp, Op.mipi_dsi_dcs_set_display_on, Op.msleep 50] := by
  have e1 : ¬ o.regulator_enable < 0 := not_lt.mpr h1
  have e2 : ¬ o.exit_sleep_mode < 0 := not_lt.mpr h2
  have e4 : ¬ o.set_display_on < 0 := not_lt.mpr h4
  have hi := init_sequence_ok o h3
  cases hr : ctx.reset_gpio <;>
    simp [ili9488_prepare, hp, hr, e1, e2, e4, hi, ops_append, ops_cons, ops_nil,
      ops_seqEvents, call]

theorem prepare_ret_zero_outcomes (o : Outcomes) (ctx : ili9488) (hp : ctx.prepared = false)
    (h : (ili9488_prepare o ctx).ret = 0) :
    0 ≤ o.regulator_enable ∧ 0 ≤ o.exit_sleep_mode ∧
    (∀ k, k < 13 → 0 ≤ o.write_seq k) ∧ 0 ≤ o.set_display_on := by
  by_cases h1 : o.regulator_enable < 0
  · simp [ili9488_prepare, hp, h1] at h; omega
  by_cases h2 : o.exit_sleep_mode < 0
  · simp [ili9488_prepare, hp, h1, h2] at h; omega
  by_cases h3 : (ili9488_init_sequence o).1 = 0
  · by_cases h4 : o.set_display_on < 0
    · simp [ili9488_prepare, hp, h1, h2, h3, h4] at h; omega
    · exact ⟨not_lt.mp h1, not_lt.mp h2, init_sequence_ret_zero o h3, not_lt.mp h4⟩
  · simp [ili9488_prepare, hp, h1, h2, h3] at h

theorem writeOps_isDcsWrite (tbl : List (DcsCmd × List Nat)) :
    ∀ x ∈ writeOps tbl, x.isDcsWrite = true := by
  intro x hx
  simp only [writeOps, List.mem_map] at hx
  obtain ⟨p, _, rfl⟩ := hx
  rfl

theorem writeOps_filter (tbl : List (DcsCmd × List Nat)) :
    (writeOps tbl).filter Op.isDcsWrite = writeOps tbl :=
  List.filter_eq_self.mpr (writeOps_isDcsWrite tbl)

theorem writeOps_length (tbl : List (DcsCmd × List Nat)) :
    (writeOps tbl).length = tbl.length := by
  simp [writeOps]

theorem prepare_vendor_fail (o : Outcomes) (ctx : ili9488) (n : Nat) (hn : n < 13)
    (hp : ctx.prepared = false) (h1 : 0 ≤ o.regulator_enable) (h2 : 0 ≤ o.exit_sleep_mode)
    (hok : ∀ k, k < n → 0 ≤ o.write_seq k) (hfail : o.write_seq n < 0) :
    (ili9488_prepare o ctx).ret = o.write_seq n ∧
    (ili9488_prepare o ctx).ctx = ctx ∧
    ops (ili9488_prepare o ctx).trace =
      (if ctx.reset_gpio then
        [Op.gpiod_set_value_cansleep 0, Op.gpiod_set_value_cansleep 1] else []) ++
      [Op.mdelay 20, Op.regulator_enable, Op.mdelay 120] ++
      (if ctx.reset_gpio then [Op.gpiod_set_value_cansleep 0, Op.mdelay 20] else []) ++
      [Op.mipi_dsi_dcs_exit_sleep_mode] ++ writeOps (init_table.take (n + 1)) := by
  have e1 : ¬ o.regulator_enable < 0 := not_lt.mpr h1
  have e2 : ¬ o.exit_sleep_mode < 0 := not_lt.mpr h2
  have e3 : o.write_seq n ≠ 0 := by omega
  have hi := init_sequence_fail o n hn hok hfail
  cases hr : ctx.reset_gpio <;>
    simp [ili9488_prepare, hp, hr, e1, e2, e3, hi, ops_append, ops_cons, ops_nil,
      ops_seqEvents, call]

/-! ## Effect of the callbacks on the flags -/

theorem prepare_ctx_cases (o : Outcomes) (ctx : ili9488) :
    (ili9488_prepare o ctx).ctx = ctx ∨
    (ili9488_prepare o ctx).ctx = { ctx with prepared := true } := by
  by_cases hp : ctx.prepared = true
  · simp [ili9488_prepare, hp]
  by_cases h1 : o.regulator_enable < 0
  · simp [ili9488_prepare, hp, h1]
  by_cases h2 : o.exit_sleep_mode < 0
  · simp [ili9488_prepare, hp, h1, h2]
  by_cases h3 : (ili9488_init_sequence o).1 = 0
  · by_cases h4 : o.set_display_on < 0
    · simp [ili9488_prepare, hp, h1, h2, h3, h4]
    · simp [ili9488_prepare, hp, h1, h2, h3, h4]
  · simp [ili9488_prepare, hp, h1, h2, h3]

theorem unprepare_ctx_cases (o : Outcomes) (ctx : ili9488) :
    (ili9488_unprepare o ctx).ctx = ctx ∨
    (ili9488_unprepare o ctx).ctx = { ctx with prepared := false } := by
  by_cases hp : ctx.prepared = true
  · by_cases h1 : o.set_display_off = 0
    · by_cases h2 : o.enter_sleep_mode = 0
      · simp [ili9488_unprepare, hp, h1, h2]
      · simp [ili9488_unprepare, hp, h1, h2]
    · simp [ili9488_unprepare, hp, h1]
  · simp [ili9488_unprepare, hp]

theorem dispatch_keeps_invariant (c : Callback) (o : Outcomes) (ctx : ili9488)
    (hc : (match c with
      | .enable => ctx.prepared
      | .unprepare => !ctx.enabled
      | _ => true) = true)
    (hinv : ctx.enabled = true → ctx.prepared = true) :
    (dispatch c o ctx).ctx.enabled = true → (dispatch c o ctx).ctx.prepared = true := by
  cases c with
  | prepare =>
    rcases prepare_ctx_cases o ctx with h | h
    · simp only [dispatch, h]; exact hinv
    · simp only [dispatch, h]; intro _; trivial
  | enable =>
    simp only at hc
    by_cases he : ctx.enabled = true
    · simp [dispatch, ili9488_enable, he, hc]
    · simp [dispatch, ili9488_enable, he, hc]
  | disable =>
    by_cases he : ctx.enabled = true
    · simp [dispatch, ili9488_disable, he]
    · simp [dispatch, ili9488_disable, he]
  | unprepare =>
    simp only [Bool.not_eq_true'] at hc
    rcases unprepare_ctx_cases o ctx with h | h
    · simp only [dispatch, h]; exact hinv
    · simp only [dispatch, h]; intro h2; rw [hc] at h2; cases h2

theorem run_keeps_invariant (calls : List (Callback × Outcomes)) (ctx : ili9488)
    (ho : ordered calls ctx = true) (hinv : ctx.enabled = true → ctx.prepared = true) :
    (run calls ctx).enabled = true → (run calls ctx).prepared = true := by
  induction calls generalizing ctx with
  | nil => exact hinv
  | cons p rest ih =>
    obtain ⟨c, o⟩ := p
    simp only [ordered, Bool.and_eq_true] at ho
    exact ih (dispatch c o ctx).ctx ho.2 (dispatch_keeps_invariant c o ctx ho.1 hinv)

/-! ## The unchecked invert-mode write -/

theorem init_sequence_invert (o : Outcomes) (v : Int) :
    (ili9488_init_sequence { o with enter_invert_mode := v }).1 = (ili9488_init_sequence o).1 ∧
    ops (ili9488_init_sequence { o with enter_invert_mode := v }).2 =
      ops (ili9488_init_sequence o).2 := by
  unfold ili9488_init_sequence
  rcases hw : dsi_dcs_write_seq o.write_seq 0 init_table with ⟨r, t⟩
  cases r with
  | some w => simp
  | none => simp [ops_append, ops_cons, ops_nil]

theorem prepare_invert (o : Outcomes) (ctx : ili9488) (v : Int) :
    (ili9488_prepare { o with enter_invert_mode := v } ctx).ret = (ili9488_prepare o ctx).ret ∧
    (ili9488_prepare { o with enter_invert_mode := v } ctx).ctx = (ili9488_prepare o ctx).ctx ∧
    ops (ili9488_prepare { o with enter_invert_mode := v } ctx).trace =
      ops (ili9488_prepare o ctx).trace := by
  obtain ⟨hi1, hi2⟩ := init_sequence_invert o v
  by_cases hp : ctx.prepared = true
  · simp [ili9488_prepare, hp]
  by_cases h1 : o.regulator_enable < 0
  · simp [ili9488_prepare, hp, h1]
  by_cases h2 : o.exit_sleep_mode < 0
  · simp [ili9488_prepare, hp, h1, h2]
  by_cases h3 : (ili9488_init_sequence o).1 = 0
  · by_cases h4 : o.set_display_on < 0
    · simp [ili9488_prepare, hp, h1, h2, h3, h4, hi1]
      simp only [ops_append, ops_cons, hi2]
    · simp [ili9488_prepare, hp, h1, h2, h3, h4, hi1]
      simp only [ops_append, ops_cons, hi2]
  · simp [ili9488_prepare, hp, h1, h2, h3, hi1]
    simp only [ops_append, ops_cons, hi2]

/-! ## Normal forms of `ili9488_unprepare` and failed `ili9488_prepare` -/

theorem unprepare_success (o : Outcomes) (ctx : ili9488) (hp : ctx.prepared = true)
    (h1 : o.set_display_off = 0) (h2 : o.enter_sleep_mode = 0) :
    (ili9488_unprepare o ctx).ret = 0 ∧
    (ili9488_unprepare o ctx).ctx = { ctx with prepared := false } ∧
    ops (ili9488_unprepare o ctx).trace =
      [Op.mipi_dsi_dcs_set_display_off, Op.mdelay 10, Op.mipi_dsi_dcs_enter_sleep_mode,
       Op.mdelay 10, Op.regulator_disable] := by
  simp [ili9488_unprepare, hp, h1, h2, ops, call]

theorem prepare_fail_ctx (o : Outcomes) (ctx : ili9488)
    (h : (ili9488_prepare o ctx).ret ≠ 0) : (ili9488_prepare o ctx).ctx = ctx := by
  by_cases hp : ctx.prepared = true
  · simp [ili9488_prepare, hp]
  by_cases h1 : o.regulator_enable < 0
  · simp [ili9488_prepare, hp, h1]
  by_cases h2 : o.exit_sleep_mode < 0
  · simp [ili9488_prepare, hp, h1, h2]
  by_cases h3 : (ili9488_init_sequence o).1 = 0
  · by_cases h4 : o.set_display_on < 0
    · simp [ili9488_prepare, hp, h1, h2, h3, h4]
    · simp [ili9488_prepare, hp, h1, h2, h3, h4] at h
  · simp [ili9488_prepare, hp, h1, h2, h3]

theorem prepare_trace_of_flags (o : Outcomes) (c1 c2 : ili9488)
    (hr : c1.reset_gpio = c2.reset_gpio) (hp : c1.prepared = c2.prepared) :
    (ili9488_prepare o c1).trace = (ili9488_prepare o c2).trace ∧
    (ili9488_prepare o c1).ret = (ili9488_prepare o c2).ret := by
  by_cases hp2 : c2.prepared = true
  · simp [ili9488_prepare, hp, hp2]
  by_cases h1 : o.regulator_enable < 0
  · simp [ili9488_prepare, hp, hp2, hr, h1]
  by_cases h2 : o.exit_sleep_mode < 0
  · simp [ili9488_prepare, hp, hp2, hr, h1, h2]
  by_cases h3 : (ili9488_init_sequence o).1 = 0
  · by_cases h4 : o.set_display_on < 0
    · simp [ili9488_prepare, hp, hp2, hr, h1, h2, h3, h4]
    · simp [ili9488_prepare, hp, hp2, hr, h1, h2, h3, h4]
  · simp [ili9488_prepare, hp, hp2, hr, h1, h2, h3]

theorem prepare_sets_prepared (o : Outcomes) (ctx : ili9488) (hp : ctx.prepared = false)
    (h : (ili9488_prepare o ctx).ctx.prepared = true) : (ili9488_prepare o ctx).ret = 0 := by
  by_cases h0 : (ili9488_prepare o ctx).ret = 0
  · exact h0
  · rw [prepare_fail_ctx o ctx h0, hp] at h
    cases h

/-! ## The first failing step -/

theorem write_seq_ops (rets : Nat → Int) (tbl : List (DcsCmd × List Nat)) (k : Nat) :
    ∀ x ∈ ops (dsi_dcs_write_seq rets k tbl).2, x.isDcsWrite = true := by
  induction tbl generalizing k with
  | nil => intro x hx; simp [dsi_dcs_write_seq, ops] at hx
  | cons p rest ih =>
    obtain ⟨cmd, d⟩ := p
    intro x hx
    by_cases h0 : rets k < 0
    · simp [dsi_dcs_write_seq, h0, ops] at hx
      subst hx
      rfl
    · simp only [dsi_dcs_write_seq, h0, if_false, ops_cons, List.mem_cons] at hx
      rcases hx with hx | hx
      · subst hx
        rfl
      · exact ih (k + 1) x hx

theorem init_sequence_ops (o : Outcomes) :
    ∀ x ∈ ops (ili9488_init_sequence o).2, x.isDcsWrite = true := by
  have hw := write_seq_ops o.write_seq init_table 0
  unfold ili9488_init_sequence
  rcases hd : dsi_dcs_write_seq o.write_seq 0 init_table with ⟨r, t⟩
  rw [hd] at hw
  cases r with
  | some v => exact hw
  | none =>
    intro x hx
    simp only [ops_append, ops_cons, ops_nil, List.mem_append, List.mem_singleton] at hx
    rcases hx with hx | hx
    · exact hw x hx
    · subst hx
      rfl

theorem prepare_ops_all (p : Op → Bool)
    (hfix : ∀ x ∈ [Op.gpiod_set_value_cansleep 0, Op.gpiod_set_value_cansleep 1,
      Op.mdelay 20, Op.regulator_enable, Op.mdelay 120, Op.mipi_dsi_dcs_exit_sleep_mode,
      Op.mipi_dsi_dcs_set_display_on, Op.msleep 50], p x = true)
    (hw : ∀ x : Op, x.isDcsWrite = true → p x = true) (o : Outcomes) (ctx : ili9488) :
    ∀ x ∈ ops (ili9488_prepare o ctx).trace, p x = true := by
  have hi : ∀ x ∈ ops (ili9488_init_sequence o).2, p x = true :=
    fun x hx => hw x (init_sequence_ops o x hx)
  simp only [List.mem_cons, List.mem_singleton, List.not_mem_nil, or_false, forall_eq_or_imp,
    forall_eq] at hfix
  obtain ⟨f1, f2, f3, f4, f5, f6, f7, f8⟩ := hfix
  intro x hx
  by_cases hp : ctx.prepared = true
  · simp [ili9488_prepare, hp, ops] at hx
  by_cases h1 : o.regulator_enable < 0
  · cases hr : ctx.reset_gpio <;>
      simp [ili9488_prepare, hp, h1, hr, ops_append, ops_cons, ops_nil, call] at hx <;>
      casesm* _ ∨ _ <;> subst_vars <;> assumption
  by_cases h2 : o.exit_sleep_mode < 0
  · cases hr : ctx.reset_gpio <;>
      simp [ili9488_prepare, hp, h1, h2, hr, ops_append, ops_cons, ops_nil, call] at hx <;>
      casesm* _ ∨ _ <;> subst_vars <;> assumption
  by_cases h3 : (ili9488_init_sequence o).1 = 0
  · by_cases h4 : o.set_display_on < 0
    · cases hr : ctx.reset_gpio <;>
        simp [ili9488_prepare, hp, h1, h2, h3, h4, hr, ops_append, ops_cons, ops_nil, call]
          at hx <;>
        casesm* _ ∨ _ <;> first | (apply hi; assumption) | (subst_vars; assumption)
    · cases hr : ctx.reset_gpio <;>
        simp [ili9488_prepare, hp, h1, h2, h3, h4, hr, ops_append, ops_cons, ops_nil, call]
          at hx <;>
        casesm* _ ∨ _ <;> first | (apply hi; assumption) | (subst_vars; assumption)
  · cases hr : ctx.reset_gpio <;>
      simp [ili9488_prepare, hp, h1, h2, h3, hr, ops_append, ops_cons, ops_nil, call] at hx <;>
      casesm* _ ∨ _ <;> first | (apply hi; assumption) | (subst_vars; assumption)

/-! ## Supply accounting -/

theorem flag_le_one (b : Bool) : flag b ≤ 1 := by
  cases b <;> decide

theorem supplyOff_append (a b : List Event) :
    supplyOff (a ++ b) = supplyOff a + supplyOff b := by
  simp [supplyOff, ops, List.count_append]

theorem supplyOn_append (a b : List Event) :
    supplyOn (a ++ b) = supplyOn a + supplyOn b := by
  simp [supplyOn, List.countP_append]

theorem supplyOff_take_le (n : Nat) (t : List Event) :
    supplyOff (t.take n) ≤ supplyOff t := by
  unfold supplyOff ops
  rw [List.map_take]
  exact (List.take_sublist n _).count_le _

theorem prepare_supplyOff (o : Outcomes) (ctx : ili9488) :
    supplyOff (ili9488_prepare o ctx).trace = 0 := by
  unfold supplyOff
  rw [List.count_eq_zero]
  intro hmem
  have := prepare_ops_all (fun x => decide (x ≠ Op.regulator_disable)) (by decide)
    (by intro x hx; cases x <;> simp_all [Op.isDcsWrite]) o ctx _ hmem
  simp at this

theorem prepare_supply_event (o : Outcomes) (ctx : ili9488) (hp : ctx.prepared = false) :
    (⟨Op.regulator_enable, some o.regulator_enable⟩ : Event) ∈ (ili9488_prepare o ctx).trace := by
  have hpn : ¬ ctx.prepared = true := by simp [hp]
  by_cases h1 : o.regulator_enable < 0
  · simp [ili9488_prepare, hpn, h1]
  by_cases h2 : o.exit_sleep_mode < 0
  · simp [ili9488_prepare, hpn, h1, h2]
  by_cases h3 : (ili9488_init_sequence o).1 = 0
  · by_cases h4 : o.set_display_on < 0
    · simp [ili9488_prepare, hpn, h1, h2, h3, h4]
    · simp [ili9488_prepare, hpn, h1, h2, h3, h4]
  · simp [ili9488_prepare, hpn, h1, h2, h3]

theorem prepare_supplyOn (o : Outcomes) (ctx : ili9488) (hp : ctx.prepared = false)
    (h : (ili9488_prepare o ctx).ctx.prepared = true) :
    1 ≤ supplyOn (ili9488_prepare o ctx).trace := by
  have h0 := prepare_sets_prepared o ctx hp h
  obtain ⟨a1, -⟩ := prepare_ret_zero_outcomes o ctx hp h0
  unfold supplyOn
  rw [Nat.succ_le_iff, List.countP_pos_iff]
  exact ⟨_, prepare_supply_event o ctx hp, by simp [Event.isSupplyOn, a1]⟩

theorem dispatch_supply (c : Callback) (o : Outcomes) (ctx : ili9488) :
    supplyOff (dispatch c o ctx).trace ≤ flag ctx.prepared ∧
    supplyOff (dispatch c o ctx).trace + flag (dispatch c o ctx).ctx.prepared ≤
      supplyOn (dispatch c o ctx).trace + flag ctx.prepared := by
  cases c with
  | prepare =>
    simp only [dispatch, prepare_supplyOff, Nat.zero_le, Nat.zero_add, true_and]
    cases hp : ctx.prepared with
    | true =>
      have := flag_le_one (ili9488_prepare o ctx).ctx.prepared
      simp only [flag, if_true] at this ⊢
      omega
    | false =>
      cases hq : (ili9488_prepare o ctx).ctx.prepared with
      | true =>
        have := prepare_supplyOn o ctx hp hq
        simp only [flag, if_true]
        omega
      | false => simp [flag]
  | enable =>
    by_cases he : ctx.enabled = true <;>
      simp [dispatch, ili9488_enable, he, supplyOff, supplyOn, ops, call, flag,
        Event.isSupplyOn]
  | disable =>
    by_cases he : ctx.enabled = true <;>
      simp [dispatch, ili9488_disable, he, supplyOff, supplyOn, ops, call, flag,
        Event.isSupplyOn]
  | unprepare =>
    by_cases hp : ctx.prepared = true
    · by_cases h1 : o.set_display_off = 0
      · by_cases h2 : o.enter_sleep_mode = 0
        · simp [dispatch, ili9488_unprepare, hp, h1, h2, supplyOff, supplyOn, ops, call,
            flag, Event.isSupplyOn]
        · simp [dispatch, ili9488_unprepare, hp, h1, h2, supplyOff, supplyOn, ops, call,
            flag, Event.isSupplyOn]
      · simp [dispatch, ili9488_unprepare, hp, h1, supplyOff, supplyOn, ops, call, flag,
          Event.isSupplyOn]
    · simp [dispatch, ili9488_unprepare, hp, supplyOff, supplyOn, ops, flag]

theorem run_supply (calls : List (Callback × Outcomes)) (ctx : ili9488) (a d : Nat)
    (h : d + flag ctx.prepared ≤ a) :
    (∀ n, d + supplyOff ((runTrace calls ctx).take n) ≤
      a + supplyOn ((runTrace calls ctx).take n)) ∧
    d + supplyOff (runTrace calls ctx) + flag (run calls ctx).prepared ≤
      a + supplyOn (runTrace calls ctx) := by
  induction calls generalizing ctx a d with
  | nil =>
    simp only [runTrace, run, List.take_nil]
    simp only [supplyOff, supplyOn, ops, List.map_nil, List.count_nil, List.countP_nil]
    constructor
    · intro _
      omega
    · omega
  | cons p rest ih =>
    obtain ⟨c, o⟩ := p
    obtain ⟨p1, p2⟩ := dispatch_supply c o ctx
    obtain ⟨i1, i2⟩ := ih (dispatch c o ctx).ctx (a + supplyOn (dispatch c o ctx).trace)
      (d + supplyOff (dispatch c o ctx).trace) (by omega)
    simp only [runTrace, run]
    constructor
    · intro n
      rw [List.take_append_eq_append_take, supplyOff_append, supplyOn_append]
      by_cases hn : (dispatch c o ctx).trace.length ≤ n
      · rw [List.take_of_length_le hn]
        have := i1 (n - (dispatch c o ctx).trace.length)
        omega
      · have hz : n - (dispatch c o ctx).trace.length = 0 := by omega
        have hle := supplyOff_take_le n (dispatch c o ctx).trace
        have e1 : supplyOff ([] : List Event) = 0 := rfl
        have e2 : supplyOn ([] : List Event) = 0 := rfl
        rw [hz, List.take_zero, e1, e2]
        omega
    · rw [supplyOff_append, supplyOn_append]
      omega

/-! ## Backlight accounting -/

theorem backlightOps_append (a b : List Event) :
    backlightOps (a ++ b) = backlightOps a ++ backlightOps b := by
  simp [backlightOps, ops]

theorem prepare_backlightOps (o : Outcomes) (ctx : ili9488) :
    backlightOps (ili9488_prepare o ctx).trace = [] := by
  unfold backlightOps
  rw [List.filter_eq_nil_iff]
  intro x hx
  have := prepare_ops_all (fun x => !x.isBacklight) (by decide)
    (by intro x hx; cases x <;> simp_all [Op.isDcsWrite, Op.isBacklight]) o ctx x hx
  simpa using this

theorem prepare_enabled (o : Outcomes) (ctx : ili9488) :
    (ili9488_prepare o ctx).ctx.enabled = ctx.enabled := by
  rcases prepare_ctx_cases o ctx with h | h <;> rw [h]

theorem unprepare_enabled (o : Outcomes) (ctx : ili9488) :
    (ili9488_unprepare o ctx).ctx.enabled = ctx.enabled := by
  rcases unprepare_ctx_cases o ctx with h | h <;> rw [h]

theorem unprepare_backlightOps (o : Outcomes) (ctx : ili9488) :
    backlightOps (ili9488_unprepare o ctx).trace = [] := by
  by_cases hp : ctx.prepared = true
  · by_cases h1 : o.set_display_off = 0
    · by_cases h2 : o.enter_sleep_mode = 0
      · simp [ili9488_unprepare, hp, h1, h2, backlightOps, ops, call, Op.isBacklight]
      · simp [ili9488_unprepare, hp, h1, h2, backlightOps, ops, call, Op.isBacklight]
    · simp [ili9488_unprepare, hp, h1, backlightOps, ops, call, Op.isBacklight]
  · simp [ili9488_unprepare, hp, backlightOps, ops]

theorem dispatch_backlight (c : Callback) (o : Outcomes) (ctx : ili9488) :
    (backlightOps (dispatch c o ctx).trace = [] ∧
      (dispatch c o ctx).ctx.enabled = ctx.enabled) ∨
    (backlightOps (dispatch c o ctx).trace = [Op.backlight_enable] ∧
      ctx.enabled = false ∧ (dispatch c o ctx).ctx.enabled = true) ∨
    (backlightOps (dispatch c o ctx).trace = [Op.backlight_disable] ∧
      ctx.enabled = true ∧ (dispatch c o ctx).ctx.enabled = false) := by
  cases c with
  | prepare => exact Or.inl ⟨prepare_backlightOps o ctx, prepare_enabled o ctx⟩
  | unprepare => exact Or.inl ⟨unprepare_backlightOps o ctx, unprepare_enabled o ctx⟩
  | enable =>
    by_cases he : ctx.enabled = true
    · left
      simp [dispatch, ili9488_enable, he, backlightOps, ops]
    · right; left
      simp [dispatch, ili9488_enable, he, backlightOps, ops, call, Op.isBacklight]
  | disable =>
    by_cases he : ctx.enabled = true
    · right; right
      simp [dispatch, ili9488_disable, he, backlightOps, ops, call, Op.isBacklight]
    · left
      simp [dispatch, ili9488_disable, he, backlightOps, ops]

theorem run_backlight (calls : List (Callback × Outcomes)) (ctx : ili9488) :
    alternates ctx.enabled (backlightOps (runTrace calls ctx)) = true ∧
    (backlightOps (runTrace calls ctx)).count Op.backlight_enable + flag ctx.enabled =
      (backlightOps (runTrace calls ctx)).count Op.backlight_disable +
        flag (run calls ctx).enabled := by
  induction calls generalizing ctx with
  | nil => simp [runTrace, run, backlightOps, ops, alternates]
  | cons p rest ih =>
    obtain ⟨c, o⟩ := p
    obtain ⟨i1, i2⟩ := ih (dispatch c o ctx).ctx
    simp only [runTrace, run, backlightOps_append]
    have f0 : flag false = 0 := rfl
    have f1 : flag true = 1 := rfl
    rcases dispatch_backlight c o ctx with ⟨hb, he⟩ | ⟨hb, he, he2⟩ | ⟨hb, he, he2⟩
    · rw [hb, List.nil_append]
      rw [he] at i1 i2
      exact ⟨i1, i2⟩
    · rw [hb, he]
      rw [he2] at i1 i2
      have c1 : ([Op.backlight_enable] ++
          backlightOps (runTrace rest (dispatch c o ctx).ctx)).count Op.backlight_enable =
          (backlightOps (runTrace rest (dispatch c o ctx).ctx)).count Op.backlight_enable + 1 := by
        simp
      have c2 : ([Op.backlight_enable] ++
          backlightOps (runTrace rest (dispatch c o ctx).ctx)).count Op.backlight_disable =
          (backlightOps (runTrace rest (dispatch c o ctx).ctx)).count Op.backlight_disable := by
        simp
      constructor
      · simpa [alternates] using i1
      · rw [c1, c2, f0]
        rw [f1] at i2
        omega
    · rw [hb, he]
      rw [he2] at i1 i2
      have c1 : ([Op.backlight_disable] ++
          backlightOps (runTrace rest (dispatch c o ctx).ctx)).count Op.backlight_enable =
          (backlightOps (runTrace rest (dispatch c o ctx).ctx)).count Op.backlight_enable := by
        simp
      have c2 : ([Op.backlight_disable] ++
          backlightOps (runTrace rest (dispatch c o ctx).ctx)).count Op.backlight_disable =
          (backlightOps (runTrace rest (dispatch c o ctx).ctx)).count Op.backlight_disable + 1 := by
        simp
      constructor
      · simpa [alternates] using i1
      · rw [c1, c2, f1]
        rw [f0] at i2
        omega

theorem run_enable_enabled (n : Nat) (o : Outcomes) (ctx : ili9488)
    (he : ctx.enabled = true) :
    runTrace (List.replicate n (Callback.enable, o)) ctx = [] := by
  induction n with
  | zero => rfl
  | succ m ih =>
    simp only [List.replicate_succ, runTrace, dispatch]
    have h1 : ili9488_enable ctx = ⟨0, ctx, []⟩ := by simp [ili9488_enable, he]
    rw [h1]
    simpa using ih

theorem run_enable_fresh (n : Nat) (o : Outcomes) (ctx : ili9488)
    (he : ctx.enabled = false) :
    runTrace (List.replicate (n + 1) (Callback.enable, o)) ctx = [call Op.backlight_enable] := by
  have h1 : ili9488_enable ctx =
      ⟨0, ⟨ctx.reset_gpio, ctx.prepared, true⟩, [call Op.backlight_enable]⟩ := by
    simp [ili9488_enable, he]
  simp only [List.replicate_succ, runTrace, dispatch, h1]
  rw [run_enable_enabled n o ⟨ctx.reset_gpio, ctx.prepared, true⟩ rfl]
  rfl

/-! ## Idempotence of the callbacks -/

/-- C1: with `prepared` set, `ili9488_prepare` returns 0, makes no collaborator
call and leaves the context as it was; hence, after a first `prepare` that
returned 0, a second `prepare` (whatever its collaborators would answer) returns
0 with an empty trace, and the trace of the two calls is that of the first. -/
theorem prepare_idempotent :
    (∀ (o : Outcomes) (ctx : ili9488), ctx.prepared = true →
      (ili9488_prepare o ctx).ret = 0 ∧ (ili9488_prepare o ctx).trace = [] ∧
      (ili9488_prepare o ctx).ctx = ctx) ∧
    (∀ (o1 o2 : Outcomes) (ctx : ili9488), (ili9488_prepare o1 ctx).ret = 0 →
      (ili9488_prepare o2 (ili9488_prepare o1 ctx).ctx).ret = 0 ∧
      (ili9488_prepare o2 (ili9488_prepare o1 ctx).ctx).trace = [] ∧
      (ili9488_prepare o2 (ili9488_prepare o1 ctx).ctx).ctx = (ili9488_prepare o1 ctx).ctx ∧
      runTrace [(Callback.prepare, o1), (Callback.prepare, o2)] ctx =
        (ili9488_prepare o1 ctx).trace) := by
  refine ⟨fun o ctx h => ?_, fun o1 o2 ctx h => ?_⟩
  · rw [prepare_of_prepared o ctx h]; exact ⟨rfl, rfl, rfl⟩
  · have hp := prepare_ret_zero o1 ctx h
    have h2 := prepare_of_prepared o2 _ hp
    refine ⟨by rw [h2], by rw [h2], by rw [h2], ?_⟩
    simp [runTrace, dispatch, h2]

theorem prepare_idempotent_witness :
    ((ili9488_prepare allOk ⟨true, true, false⟩).ret = 0 ∧
      (ili9488_prepare allOk ⟨true, true, false⟩).trace = [] ∧
      (ili9488_prepare allOk ⟨true, true, false⟩).ctx = ⟨true, true, false⟩) ∧
    ((ili9488_prepare allOk (ili9488_prepare allOk (probed true)).ctx).ret = 0 ∧
      (ili9488_prepare allOk (ili9488_prepare allOk (probed true)).ctx).trace = [] ∧
      (ili9488_prepare allOk (ili9488_prepare allOk (probed true)).ctx).ctx =
        (ili9488_prepare allOk (probed true)).ctx ∧
      runTrace [(Callback.prepare, allOk), (Callback.prepare, allOk)] (probed true) =
        (ili9488_prepare allOk (probed true)).trace) :=
  ⟨prepare_idempotent.1 allOk ⟨true, true, false⟩ rfl,
   prepare_idempotent.2 allOk allOk (probed true) (by decide)⟩

/-- C2: `ili9488_unprepare` with `prepared` clear, `ili9488_disable` with
`enabled` clear and `ili9488_enable` with `enabled` set each return 0, make no
collaborator call and leave the context (both flags) as it was. -/
theorem noop_callbacks (o : Outcomes) (ctx : ili9488) :
    (ctx.prepared = false →
      (ili9488_unprepare o ctx).ret = 0 ∧ (ili9488_unprepare o ctx).trace = [] ∧
      (ili9488_unprepare o ctx).ctx = ctx) ∧
    (ctx.enabled = false →
      (ili9488_disable ctx).ret = 0 ∧ (ili9488_disable ctx).trace = [] ∧
      (ili9488_disable ctx).ctx = ctx) ∧
    (ctx.enabled = true →
      (ili9488_enable ctx).ret = 0 ∧ (ili9488_enable ctx).trace = [] ∧
      (ili9488_enable ctx).ctx = ctx) := by
  refine ⟨fun h => ?_, fun h => ?_, fun h => ?_⟩
  · simp [ili9488_unprepare, h]
  · simp [ili9488_disable, h]
  · simp [ili9488_enable, h]

theorem noop_callbacks_witness :
    ((ili9488_unprepare allOk ⟨true, false, true⟩).ret = 0 ∧
      (ili9488_unprepare allOk ⟨true, false, true⟩).trace = [] ∧
      (ili9488_unprepare allOk ⟨true, false, true⟩).ctx = ⟨true, false, true⟩) ∧
    ((ili9488_disable (probed true)).ret = 0 ∧ (ili9488_disable (probed true)).trace = [] ∧
      (ili9488_disable (probed true)).ctx = probed true) ∧
    ((ili9488_enable ⟨true, false, true⟩).ret = 0 ∧
      (ili9488_enable ⟨true, false, true⟩).trace = [] ∧
      (ili9488_enable ⟨true, false, true⟩).ctx = ⟨true, false, true⟩) :=
  ⟨(noop_callbacks allOk ⟨true, false, true⟩).1 rfl,
   (noop_callbacks allOk (probed true)).2.1 rfl,
   (noop_callbacks allOk ⟨true, false, true⟩).2.2 rfl⟩

/-! ## Ordering and failure of `ili9488_prepare` -/

/-- C3: a run of `ili9488_prepare` that starts with `prepared` clear and returns
0 (with or without a reset line, whatever the unchecked invert-mode write
returned) has a trace of the shape
`pre, regulator_enable, mid, exit_sleep_mode, vendor, set_display_on, post`
in which `pre`, `mid` and `post` hold neither a bus write nor a supply enable
and `vendor` holds only `mipi_dsi_dcs_write` calls: the supply is enabled
exactly once and before every bus write, the first bus write is exit-sleep-mode
and display-on comes after it and is the last bus write. -/
theorem prepare_success_ordering (o : Outcomes) (ctx : ili9488)
    (hp : ctx.prepared = false) (h0 : (ili9488_prepare o ctx).ret = 0) :
    (ops (ili9488_prepare o ctx).trace).count Op.regulator_enable = 1 ∧
    ∃ pre mid vendor post : List Op,
      ops (ili9488_prepare o ctx).trace =
        pre ++ [Op.regulator_enable] ++ mid ++ [Op.mipi_dsi_dcs_exit_sleep_mode] ++
          vendor ++ [Op.mipi_dsi_dcs_set_display_on] ++ post ∧
      (∀ x ∈ pre, x.isQuiet = true) ∧ (∀ x ∈ mid, x.isQuiet = true) ∧
      (∀ x ∈ vendor, x.isDcsWrite = true) ∧ (∀ x ∈ post, x.isQuiet = true) := by
  obtain ⟨h1, h2, h3, h4⟩ := prepare_ret_zero_outcomes o ctx hp h0
  obtain ⟨-, -, ht⟩ := prepare_success o ctx hp h1 h2 h3 h4
  rw [ht]
  constructor
  · cases ctx.reset_gpio <;> decide
  · refine ⟨(if ctx.reset_gpio then
        [Op.gpiod_set_value_cansleep 0, Op.gpiod_set_value_cansleep 1] else []) ++
        [Op.mdelay 20],
      [Op.mdelay 120] ++
        (if ctx.reset_gpio then [Op.gpiod_set_value_cansleep 0, Op.mdelay 20] else []),
      writeOps init_table ++ [invertOp], [Op.msleep 50], ?_, ?_, ?_, ?_, ?_⟩
    · simp
    · cases ctx.reset_gpio <;> decide
    · cases ctx.reset_gpio <;> decide
    · decide
    · decide

theorem prepare_success_ordering_witness :
    (ops (ili9488_prepare allOk (probed true)).trace).count Op.regulator_enable = 1 :=
  (prepare_success_ordering allOk (probed true) rfl (by decide)).1

/-- C4: for `N` from 1 to 13, when `ili9488_prepare` starts with `prepared`
clear, the supply enable and exit-sleep-mode succeed, the first `N - 1` checked
writes of the init sequence succeed and the `N`-th returns a negative value,
then the `mipi_dsi_dcs_write` calls of the run are exactly the first `N` lines
of the table (so `N` of them), neither the invert-mode write nor display-on is
issued, the `N`-th write is the last call of the run, `ili9488_prepare` returns the value of
that write and the context, `prepared` included, is unchanged. -/
theorem vendor_write_failure (o : Outcomes) (ctx : ili9488) (N : Nat)
    (hN1 : 1 ≤ N) (hN13 : N ≤ 13) (hp : ctx.prepared = false)
    (hs : 0 ≤ o.regulator_enable) (he : 0 ≤ o.exit_sleep_mode)
    (hok : ∀ k, k < N - 1 → 0 ≤ o.write_seq k) (hfail : o.write_seq (N - 1) < 0) :
    (ili9488_prepare o ctx).ret = o.write_seq (N - 1) ∧
    (ili9488_prepare o ctx).ctx = ctx ∧
    (ili9488_prepare o ctx).ctx.prepared = false ∧
    (ops (ili9488_prepare o ctx).trace).filter Op.isDcsWrite = writeOps (init_table.take N) ∧
    ((ops (ili9488_prepare o ctx).trace).filter Op.isDcsWrite).length = N ∧
    (ops (ili9488_prepare o ctx).trace).getLast? = (writeOps init_table)[N - 1]? ∧
    invertOp ∉ ops (ili9488_prepare o ctx).trace ∧
    Op.mipi_dsi_dcs_set_display_on ∉ ops (ili9488_prepare o ctx).trace := by
  obtain ⟨hr, hc, ht⟩ := prepare_vendor_fail o ctx (N - 1) (by omega) hp hs he hok hfail
  rw [show N - 1 + 1 = N by omega] at ht
  refine ⟨hr, hc, by rw [hc]; exact hp, ?_⟩
  rw [ht]
  interval_cases N <;> cases ctx.reset_gpio <;> decide

theorem vendor_write_failure_witness :
    (ili9488_prepare thirdWriteFails (probed true)).ret = -5 ∧
    ((ops (ili9488_prepare thirdWriteFails (probed true)).trace).filter Op.isDcsWrite).length = 3 ∧
    (ili9488_prepare thirdWriteFails (probed true)).ctx.prepared = false :=
  have h := vendor_write_failure thirdWriteFails (probed true) 3 (by decide) (by decide) rfl
    (by decide) (by decide) (by decide) (by decide)
  ⟨h.1, h.2.2.2.2.1, h.2.2.1⟩

/-! ## `ili9488_unprepare` and the supply -/

/-- C5 (as stated, refuted): on a prepared panel whose display-off command fails,
and likewise when the enter-sleep-mode command fails, `ili9488_unprepare`
returns the error without any `regulator_disable` call. -/
theorem unprepare_failure_skips_supply_disable :
    (⟨true, true, false⟩ : ili9488).prepared = true ∧
    Op.regulator_disable ∉ ops (ili9488_unprepare displayOffFails ⟨true, true, false⟩).trace ∧
    (ili9488_unprepare displayOffFails ⟨true, true, false⟩).ret = -5 ∧
    Op.regulator_disable ∉ ops (ili9488_unprepare enterSleepFails ⟨true, true, false⟩).trace ∧
    (ili9488_unprepare enterSleepFails ⟨true, true, false⟩).ret = -5 := by
  decide

/-- C5 (amended): in a run of `ili9488_unprepare` that starts with `prepared`
set, the supply is disabled (once, as the last call) exactly when the
display-off and the enter-sleep-mode commands both return 0, the calls then
being display-off, delay 10, enter-sleep-mode, delay 10, supply-disable. When
display-off returns a non-zero value the call returns that value at once: the
failed display-off is the only event of the run. When display-off returns 0
and enter-sleep-mode a non-zero value the call returns that value at once: the
events are display-off, delay 10 and the failed enter-sleep-mode, nothing
after it. In both failing runs the context is unchanged and the trace holds no
`regulator_disable`. -/
theorem unprepare_supply_disable (o : Outcomes) (ctx : ili9488) (hp : ctx.prepared = true) :
    (Op.regulator_disable ∈ ops (ili9488_unprepare o ctx).trace ↔
      (o.set_display_off = 0 ∧ o.enter_sleep_mode = 0)) ∧
    ((o.set_display_off = 0 ∧ o.enter_sleep_mode = 0) →
      (ops (ili9488_unprepare o ctx).trace).count Op.regulator_disable = 1 ∧
      (ops (ili9488_unprepare o ctx).trace).getLast? = some Op.regulator_disable ∧
      ops (ili9488_unprepare o ctx).trace =
        [Op.mipi_dsi_dcs_set_display_off, Op.mdelay 10, Op.mipi_dsi_dcs_enter_sleep_mode,
         Op.mdelay 10, Op.regulator_disable]) ∧
    (o.set_display_off ≠ 0 →
      (ili9488_unprepare o ctx).ret = o.set_display_off ∧
      (ili9488_unprepare o ctx).trace =
        [⟨Op.mipi_dsi_dcs_set_display_off, some o.set_display_off⟩] ∧
      (ili9488_unprepare o ctx).ctx = ctx) ∧
    (o.set_display_off = 0 → o.enter_sleep_mode ≠ 0 →
      (ili9488_unprepare o ctx).ret = o.enter_sleep_mode ∧
      (ili9488_unprepare o ctx).trace =
        [⟨Op.mipi_dsi_dcs_set_display_off, some 0⟩, call (Op.mdelay 10),
         ⟨Op.mipi_dsi_dcs_enter_sleep_mode, some o.enter_sleep_mode⟩] ∧
      (ili9488_unprepare o ctx).ctx = ctx) := by
  by_cases h1 : o.set_display_off = 0
  · by_cases h2 : o.enter_sleep_mode = 0
    · simp [ili9488_unprepare, hp, h1, h2, ops, call]
    · simp [ili9488_unprepare, hp, h1, h2, ops, call]
  · simp [ili9488_unprepare, hp, h1, ops, call]

theorem unprepare_supply_disable_witness :
    Op.regulator_disable ∈ ops (ili9488_unprepare allOk ⟨true, true, false⟩).trace ∧
    ((ili9488_unprepare displayOffFails ⟨true, true, false⟩).ret = -5 ∧
      (ili9488_unprepare displayOffFails ⟨true, true, false⟩).trace =
        [⟨Op.mipi_dsi_dcs_set_display_off, some (-5)⟩] ∧
      (ili9488_unprepare displayOffFails ⟨true, true, false⟩).ctx = ⟨true, true, false⟩) ∧
    ((ili9488_unprepare enterSleepFails ⟨true, true, false⟩).ret = -5 ∧
      (ili9488_unprepare enterSleepFails ⟨true, true, false⟩).trace =
        [⟨Op.mipi_dsi_dcs_set_display_off, some 0⟩, call (Op.mdelay 10),
         ⟨Op.mipi_dsi_dcs_enter_sleep_mode, some (-5)⟩] ∧
      (ili9488_unprepare enterSleepFails ⟨true, true, false⟩).ctx = ⟨true, true, false⟩) :=
  ⟨(unprepare_supply_disable allOk ⟨true, true, false⟩ rfl).1.mpr ⟨rfl, rfl⟩,
   (unprepare_supply_disable displayOffFails ⟨true, true, false⟩ rfl).2.2.1 (by decide),
   (unprepare_supply_disable enterSleepFails ⟨true, true, false⟩ rfl).2.2.2 rfl (by decide)⟩

/-! ## The flags along sequences of callbacks -/

/-- C6 (as stated, refuted): from the probed context a single `enable`, or a
successful `prepare`, `enable`, `unprepare`, ends with `enabled` set and
`prepared` clear. -/
theorem enabled_without_prepared_reachable :
    ((run [(Callback.enable, allOk)] (probed true)).enabled = true ∧
      (run [(Callback.enable, allOk)] (probed true)).prepared = false) ∧
    ((run [(Callback.prepare, allOk), (Callback.enable, allOk), (Callback.unprepare, allOk)]
        (probed true)).enabled = true ∧
      (run [(Callback.prepare, allOk), (Callback.enable, allOk), (Callback.unprepare, allOk)]
        (probed true)).prepared = false) := by
  decide

/-- C6 (amended): in every context reached from the probed one by a finite
sequence of callbacks, with arbitrary collaborator outcomes, in which `enable`
is only called while `prepared` is set and `unprepare` only while `enabled` is
clear, `enabled` implies `prepared`. -/
theorem enabled_implies_prepared (calls : List (Callback × Outcomes)) (reset_gpio : Bool)
    (ho : ordered calls (probed reset_gpio) = true) :
    (run calls (probed reset_gpio)).enabled = true →
      (run calls (probed reset_gpio)).prepared = true :=
  run_keeps_invariant calls (probed reset_gpio) ho (by intro h; cases h)

theorem enabled_implies_prepared_witness :
    (run [(Callback.prepare, allOk), (Callback.enable, allOk)] (probed true)).enabled = true ∧
    (run [(Callback.prepare, allOk), (Callback.enable, allOk)] (probed true)).prepared = true :=
  ⟨by decide,
   enabled_implies_prepared [(Callback.prepare, allOk), (Callback.enable, allOk)] true
     (by decide) (by decide)⟩

/-- C7: in every context `ili9488_enable` and `ili9488_disable` return 0 and
leave `prepared` (and `reset_gpio`) unchanged; the only call `enable` can make
is one `backlight_enable` and the only call `disable` can make is one
`backlight_disable` (so no bus write, supply, reset or delay call), at most one
per invocation; afterwards `enabled` is set, respectively clear. -/
theorem enable_disable_frame (ctx : ili9488) :
    ((ili9488_enable ctx).ret = 0 ∧
      (ili9488_enable ctx).ctx.prepared = ctx.prepared ∧
      (ili9488_enable ctx).ctx.reset_gpio = ctx.reset_gpio ∧
      (ili9488_enable ctx).ctx.enabled = true ∧
      (∀ x ∈ ops (ili9488_enable ctx).trace, x = Op.backlight_enable) ∧
      (ops (ili9488_enable ctx).trace).length ≤ 1) ∧
    ((ili9488_disable ctx).ret = 0 ∧
      (ili9488_disable ctx).ctx.prepared = ctx.prepared ∧
      (ili9488_disable ctx).ctx.reset_gpio = ctx.reset_gpio ∧
      (ili9488_disable ctx).ctx.enabled = false ∧
      (∀ x ∈ ops (ili9488_disable ctx).trace, x = Op.backlight_disable) ∧
      (ops (ili9488_disable ctx).trace).length ≤ 1) := by
  by_cases he : ctx.enabled = true
  · simp [ili9488_enable, ili9488_disable, he, ops, call]
  · simp [ili9488_enable, ili9488_disable, he, ops, call]

/-! ## Failure of the supply -/

/-- C8: when `ili9488_prepare` starts with `prepared` clear and
`regulator_enable` returns a negative value, `ili9488_prepare` returns that
value, the context (`prepared` included) is unchanged, the trace holds no bus
write and ends with the failed `regulator_enable`; with a reset line the whole
trace is reset(0), reset(1), delay 20, supply enable, and without one it is
delay 20, supply enable. -/
theorem supply_failure (o : Outcomes) (ctx : ili9488) (hp : ctx.prepared = false)
    (hneg : o.regulator_enable < 0) :
    (ili9488_prepare o ctx).ret = o.regulator_enable ∧
    (ili9488_prepare o ctx).ctx = ctx ∧
    (ili9488_prepare o ctx).ctx.prepared = false ∧
    (∀ x ∈ ops (ili9488_prepare o ctx).trace, x.isBusWrite = false) ∧
    (ops (ili9488_prepare o ctx).trace).getLast? = some Op.regulator_enable ∧
    (ops (ili9488_prepare o ctx).trace).count Op.regulator_enable = 1 ∧
    (ctx.reset_gpio = true →
      ops (ili9488_prepare o ctx).trace =
        [Op.gpiod_set_value_cansleep 0, Op.gpiod_set_value_cansleep 1, Op.mdelay 20,
         Op.regulator_enable]) ∧
    (ctx.reset_gpio = false →
      ops (ili9488_prepare o ctx).trace = [Op.mdelay 20, Op.regulator_enable]) := by
  cases hr : ctx.reset_gpio <;>
    simp [ili9488_prepare, hp, hr, hneg, ops, call, Op.isBusWrite]

theorem supply_failure_witness :
    (ili9488_prepare supplyDeferred (probed true)).ret = -517 ∧
    ops (ili9488_prepare supplyDeferred (probed true)).trace =
      [Op.gpiod_set_value_cansleep 0, Op.gpiod_set_value_cansleep 1, Op.mdelay 20,
       Op.regulator_enable] :=
  have h := supply_failure supplyDeferred (probed true) rfl (by decide)
  ⟨h.1, h.2.2.2.2.2.2.1 rfl⟩

/-! ## The register table -/

/-- C9: when the thirteen checked writes succeed, `ili9488_init_sequence`
returns 0 after exactly fourteen `mipi_dsi_dcs_write` calls, in this order and
with these payloads: 0xE0 (15 bytes), 0xE1 (15), 0xC0 (0x18 0x17), 0xC1 (1),
0xC5 (3), set-address-mode (1), set-pixel-format (1), 0xB0 (1), 0xB1 (1),
0xB4 (1), 0xB6 (2), 0xE9 (1), 0xF7 (0xA9 0x51 0x2C 0x82) and enter-invert-mode
with an empty payload. -/
theorem init_sequence_writes (o : Outcomes) (h : ∀ k, k < 13 → 0 ≤ o.write_seq k) :
    (ili9488_init_sequence o).1 = 0 ∧
    ops (ili9488_init_sequence o).2 =
      [ Op.mipi_dsi_dcs_write (.code 0xE0)
          [0x00, 0x13, 0x18, 0x04, 0x0F, 0x06, 0x3A, 0x56,
           0x4D, 0x03, 0x0A, 0x06, 0x30, 0x3E, 0x0F],
        Op.mipi_dsi_dcs_write (.code 0xE1)
          [0x00, 0x13, 0x18, 0x01, 0x11, 0x06, 0x38, 0x34,
           0x4D, 0x06, 0x0D, 0x0B, 0x31, 0x37, 0x0F],
        Op.mipi_dsi_dcs_write (.code 0xC0) [0x18, 0x17],
        Op.mipi_dsi_dcs_write (.code 0xC1) [0x41],
        Op.mipi_dsi_dcs_write (.code 0xC5) [0x00, 0x1A, 0x80],
        Op.mipi_dsi_dcs_write .MIPI_DCS_SET_ADDRESS_MODE [0x48],
        Op.mipi_dsi_dcs_write .MIPI_DCS_SET_PIXEL_FORMAT [0x55],
        Op.mipi_dsi_dcs_write (.code 0xB0) [0x00],
        Op.mipi_dsi_dcs_write (.code 0xB1) [0xA0],
        Op.mipi_dsi_dcs_write (.code 0xB4) [0x02],
        Op.mipi_dsi_dcs_write (.code 0xB6) [0x20, 0x02],
        Op.mipi_dsi_dcs_write (.code 0xE9) [0x00],
        Op.mipi_dsi_dcs_write (.code 0xF7) [0xA9, 0x51, 0x2C, 0x82],
        Op.mipi_dsi_dcs_write .MIPI_DCS_ENTER_INVERT_MODE [] ] ∧
    (ops (ili9488_init_sequence o).2).length = 14 ∧
    (ops (ili9488_init_sequence o).2).map Op.payloadLength =
      [15, 15, 2, 1, 3, 1, 1, 1, 1, 1, 2, 1, 4, 0] := by
  rw [init_sequence_ok o h]
  simp only [ops_append, ops_seqEvents, ops_cons, ops_nil]
  decide

theorem init_sequence_writes_witness :
    (ili9488_init_sequence allOk).1 = 0 ∧
    (ops (ili9488_init_sequence allOk).2).length = 14 :=
  have h := init_sequence_writes allOk (fun _ _ => le_refl (0 : Int))
  ⟨h.1, h.2.2.1⟩

/-- C10: two runs of `ili9488_prepare` whose collaborator outcomes differ at
most in the value returned by the invert-mode write return the same value,
leave the same context and make the same calls in the same order; and when
every checked step succeeds while the invert-mode write fails, display-on is
still issued (right after the invert-mode write), `ili9488_prepare` returns 0
and `prepared` is set. -/
theorem invert_result_ignored (o1 o2 : Outcomes) (ctx : ili9488)
    (hre : o1.regulator_enable = o2.regulator_enable)
    (hes : o1.exit_sleep_mode = o2.exit_sleep_mode)
    (hws : o1.write_seq = o2.write_seq)
    (hon : o1.set_display_on = o2.set_display_on)
    (hoff : o1.set_display_off = o2.set_display_off)
    (hsl : o1.enter_sleep_mode = o2.enter_sleep_mode) :
    ((ili9488_prepare o1 ctx).ret = (ili9488_prepare o2 ctx).ret ∧
      (ili9488_prepare o1 ctx).ctx = (ili9488_prepare o2 ctx).ctx ∧
      ops (ili9488_prepare o1 ctx).trace = ops (ili9488_prepare o2 ctx).trace) ∧
    (ctx.prepared = false → 0 ≤ o1.regulator_enable → 0 ≤ o1.exit_sleep_mode →
      (∀ k, k < 13 → 0 ≤ o1.write_seq k) → 0 ≤ o1.set_display_on →
      o1.enter_invert_mode < 0 →
      (ili9488_prepare o1 ctx).ret = 0 ∧ (ili9488_prepare o1 ctx).ctx.prepared = true ∧
      ∃ before : List Op, ops (ili9488_prepare o1 ctx).trace =
        before ++ [invertOp, Op.mipi_dsi_dcs_set_display_on, Op.msleep 50]) := by
  constructor
  · have h12 : o1 = { o2 with enter_invert_mode := o1.enter_invert_mode } := by
      cases o1; cases o2; simp_all
    rw [h12]
    exact prepare_invert o2 ctx _
  · intro hp h1 h2 h3 h4 _
    obtain ⟨hr, hc, ht⟩ := prepare_success o1 ctx hp h1 h2 h3 h4
    exact ⟨hr, by rw [hc], _, ht⟩

theorem invert_result_ignored_witness :
    ((ili9488_prepare invertFails (probed true)).ret = (ili9488_prepare allOk (probed true)).ret ∧
      (ili9488_prepare invertFails (probed true)).ctx = (ili9488_prepare allOk (probed true)).ctx ∧
      ops (ili9488_prepare invertFails (probed true)).trace =
        ops (ili9488_prepare allOk (probed true)).trace) ∧
    (ili9488_prepare invertFails (probed true)).ret = 0 ∧
    (ili9488_prepare invertFails (probed true)).ctx.prepared = true :=
  have h := invert_result_ignored invertFails allOk (probed true) rfl rfl rfl rfl rfl rfl
  have h2 := h.2 rfl (by decide) (by decide) (fun _ _ => le_refl (0 : Int)) (by decide)
    (by decide)
  ⟨h.1, h2.1, h2.2.1⟩

/-! ## Power-down and re-entry -/

/-- C11: a run of `ili9488_unprepare` that starts with `prepared` set and in
which display-off and enter-sleep-mode both return 0 makes exactly the calls
display-off, delay 10, enter-sleep-mode, delay 10, supply-disable, returns 0
and clears `prepared` (leaving `enabled` alone); hence a `prepare` that returned
0 followed by such an `unprepare` ends with `prepared` clear and exactly one
supply-disable in the trace of the two calls. -/
theorem unprepare_success_trace :
    (∀ (o : Outcomes) (ctx : ili9488), ctx.prepared = true →
      o.set_display_off = 0 → o.enter_sleep_mode = 0 →
      ops (ili9488_unprepare o ctx).trace =
        [Op.mipi_dsi_dcs_set_display_off, Op.mdelay 10, Op.mipi_dsi_dcs_enter_sleep_mode,
         Op.mdelay 10, Op.regulator_disable] ∧
      (ili9488_unprepare o ctx).ret = 0 ∧
      (ili9488_unprepare o ctx).ctx.prepared = false ∧
      (ili9488_unprepare o ctx).ctx.enabled = ctx.enabled) ∧
    (∀ (o1 o2 : Outcomes) (ctx : ili9488), ctx.prepared = false →
      (ili9488_prepare o1 ctx).ret = 0 →
      o2.set_display_off = 0 → o2.enter_sleep_mode = 0 →
      (run [(Callback.prepare, o1), (Callback.unprepare, o2)] ctx).prepared = false ∧
      (ops (runTrace [(Callback.prepare, o1), (Callback.unprepare, o2)] ctx)).count
        Op.regulator_disable = 1) := by
  refine ⟨fun o ctx hp h1 h2 => ?_, fun o1 o2 ctx hp h0 h1 h2 => ?_⟩
  · obtain ⟨hr, hc, ht⟩ := unprepare_success o ctx hp h1 h2
    exact ⟨ht, hr, by rw [hc], by rw [hc]⟩
  · obtain ⟨a1, a2, a3, a4⟩ := prepare_ret_zero_outcomes o1 ctx hp h0
    obtain ⟨-, hc, ht⟩ := prepare_success o1 ctx hp a1 a2 a3 a4
    have hp2 : (ili9488_prepare o1 ctx).ctx.prepared = true := by rw [hc]
    obtain ⟨-, hc2, ht2⟩ := unprepare_success o2 _ hp2 h1 h2
    constructor
    · simp [run, dispatch, hc2]
    · simp only [runTrace, dispatch, List.append_nil, ops_append, ht, ht2]
      cases ctx.reset_gpio <;> decide

theorem unprepare_success_trace_witness :
    (ops (ili9488_unprepare allOk ⟨true, true, false⟩).trace =
        [Op.mipi_dsi_dcs_set_display_off, Op.mdelay 10, Op.mipi_dsi_dcs_enter_sleep_mode,
         Op.mdelay 10, Op.regulator_disable] ∧
      (ili9488_unprepare allOk ⟨true, true, false⟩).ret = 0 ∧
      (ili9488_unprepare allOk ⟨true, true, false⟩).ctx.prepared = false ∧
      (ili9488_unprepare allOk ⟨true, true, false⟩).ctx.enabled = false) ∧
    ((run [(Callback.prepare, allOk), (Callback.unprepare, allOk)] (probed true)).prepared = false ∧
      (ops (runTrace [(Callback.prepare, allOk), (Callback.unprepare, allOk)]
        (probed true))).count Op.regulator_disable = 1) :=
  ⟨unprepare_success_trace.1 allOk ⟨true, true, false⟩ rfl rfl rfl,
   unprepare_success_trace.2 allOk allOk (probed true) rfl (by decide) rfl rfl⟩

/-- C12: a run of `ili9488_prepare` that starts with `prepared` clear and
returns a non-zero value (whichever step failed) leaves the context as it was,
so `prepared` is still clear and `enabled` unchanged; a following
`ili9488_prepare` whose collaborators all succeed then returns 0, sets
`prepared`, and produces the very events of a successful `ili9488_prepare` on a
freshly probed panel with the same reset line: the whole sequence from the
reset pulse on, with one new supply enable. -/
theorem failed_prepare_reruns (o1 o2 : Outcomes) (ctx : ili9488)
    (hp : ctx.prepared = false) (hfail : (ili9488_prepare o1 ctx).ret ≠ 0)
    (h1 : 0 ≤ o2.regulator_enable) (h2 : 0 ≤ o2.exit_sleep_mode)
    (h3 : ∀ k, k < 13 → 0 ≤ o2.write_seq k) (h4 : 0 ≤ o2.set_display_on) :
    (ili9488_prepare o1 ctx).ctx.prepared = false ∧
    (ili9488_prepare o1 ctx).ctx.enabled = ctx.enabled ∧
    (ili9488_prepare o1 ctx).ctx = ctx ∧
    (ili9488_prepare o2 (ili9488_prepare o1 ctx).ctx).trace =
      (ili9488_prepare o2 (probed ctx.reset_gpio)).trace ∧
    (ili9488_prepare o2 (probed ctx.reset_gpio)).ret = 0 ∧
    (ili9488_prepare o2 (ili9488_prepare o1 ctx).ctx).ret = 0 ∧
    (ili9488_prepare o2 (ili9488_prepare o1 ctx).ctx).ctx.prepared = true ∧
    (ops (ili9488_prepare o2 (ili9488_prepare o1 ctx).ctx).trace).count Op.regulator_enable = 1 ∧
    (ctx.reset_gpio = true →
      ops (ili9488_prepare o2 (ili9488_prepare o1 ctx).ctx).trace = fullPrepareOps) := by
  have hc := prepare_fail_ctx o1 ctx hfail
  rw [hc]
  obtain ⟨hr, hc2, ht⟩ := prepare_success o2 ctx hp h1 h2 h3 h4
  obtain ⟨e1, e2⟩ := prepare_trace_of_flags o2 ctx (probed ctx.reset_gpio) rfl hp
  refine ⟨hp, rfl, rfl, e1, by rw [← e2]; exact hr, hr, by rw [hc2], ?_, ?_⟩
  · rw [ht]
    cases ctx.reset_gpio <;> decide
  · intro hg
    rw [ht, hg]
    rfl

theorem failed_prepare_reruns_witness :
    (ili9488_prepare thirdWriteFails (probed true)).ctx = probed true ∧
    (ili9488_prepare allOk (ili9488_prepare thirdWriteFails (probed true)).ctx).trace =
      (ili9488_prepare allOk (probed true)).trace ∧
    ops (ili9488_prepare allOk (ili9488_prepare thirdWriteFails (probed true)).ctx).trace =
      fullPrepareOps :=
  have h := failed_prepare_reruns thirdWriteFails allOk (probed true) rfl (by decide)
    (by decide) (by decide) (fun _ _ => le_refl (0 : Int)) (by decide)
  ⟨h.2.2.1, h.2.2.2.1, h.2.2.2.2.2.2.2.2 rfl⟩

/-! ## The published mode -/

/-- C13: `default_mode` has hdisplay 320, hsync_start 450, hsync_end 454,
htotal 584, vdisplay 480, vsync_start 482, vsync_end 483, vtotal 485,
vrefresh 60, clock 17000, width_mm 42 and height_mm 82; the mode
`ili9488_get_modes` hands to the connector is a copy of this constant (with the
driver/preferred type bits set on the copy) whatever the flags of the context
are and however many calls came before, the size written to `display_info` is
42 by 82, and `ili9488_get_modes` never changes the context. When the
duplication fails no mode is handed out. -/
theorem default_mode_published (K : KernelConsts) (ctx ctx2 : ili9488) (duplicated : Bool)
    (previous : List Bool) :
    (default_mode.hdisplay = 320 ∧ default_mode.hsync_start = 450 ∧
      default_mode.hsync_end = 454 ∧ default_mode.htotal = 584 ∧
      default_mode.vdisplay = 480 ∧ default_mode.vsync_start = 482 ∧
      default_mode.vsync_end = 483 ∧ default_mode.vtotal = 485 ∧
      default_mode.vrefresh = 60 ∧ default_mode.clock = 17000 ∧
      default_mode.width_mm = 42 ∧ default_mode.height_mm = 82) ∧
    (ili9488_get_modes K true ctx).probed_mode =
      some { default_mode with type := K.DRM_MODE_TYPE_DRIVER ||| K.DRM_MODE_TYPE_PREFERRED } ∧
    (ili9488_get_modes K true ctx).display_info = some (42, 82) ∧
    (ili9488_get_modes K true ctx).ret = 1 ∧
    (ili9488_get_modes K false ctx).probed_mode = none ∧
    (ili9488_get_modes K duplicated ctx).probed_mode =
      (ili9488_get_modes K duplicated ctx2).probed_mode ∧
    (ili9488_get_modes K duplicated ctx).ctx = ctx ∧
    previous.foldl (fun c d => (ili9488_get_modes K d c).ctx) ctx = ctx := by
  refine ⟨by decide, rfl, rfl, rfl, rfl, ?_, ?_, ?_⟩
  · cases duplicated <;> rfl
  · cases duplicated <;> rfl
  · induction previous with
    | nil => rfl
    | cons d rest ih =>
      have hd : (ili9488_get_modes K d ctx).ctx = ctx := by cases d <;> rfl
      simp only [List.foldl_cons, hd]
      exact ih

/-! ## The reset line and the full power-up trace -/

/-- C14: on a panel without a reset line, a run of `ili9488_prepare` from
`prepared` clear in which every checked step succeeds makes no reset call,
returns 0 and sets `prepared`; its calls are `A ++ B` while those of the same
run with a reset line are reset(0), reset(1), `A`, reset(0), delay 20, `B`,
where `A` is delay 20, supply enable, delay 120 and `B` is exit-sleep-mode, the
fourteen init writes, display-on, delay 50. -/
theorem prepare_without_reset (o : Outcomes) (ctx : ili9488)
    (hr : ctx.reset_gpio = false) (hp : ctx.prepared = false)
    (h1 : 0 ≤ o.regulator_enable) (h2 : 0 ≤ o.exit_sleep_mode)
    (h3 : ∀ k, k < 13 → 0 ≤ o.write_seq k) (h4 : 0 ≤ o.set_display_on) :
    (∀ x ∈ ops (ili9488_prepare o ctx).trace, x.isReset = false) ∧
    (ili9488_prepare o ctx).ret = 0 ∧
    (ili9488_prepare o ctx).ctx.prepared = true ∧
    ∃ A B : List Op,
      A = [Op.mdelay 20, Op.regulator_enable, Op.mdelay 120] ∧
      B = [Op.mipi_dsi_dcs_exit_sleep_mode] ++ writeOps init_table ++
        [invertOp, Op.mipi_dsi_dcs_set_display_on, Op.msleep 50] ∧
      ops (ili9488_prepare o ctx).trace = A ++ B ∧
      ops (ili9488_prepare o { ctx with reset_gpio := true }).trace =
        [Op.gpiod_set_value_cansleep 0, Op.gpiod_set_value_cansleep 1] ++ A ++
        [Op.gpiod_set_value_cansleep 0, Op.mdelay 20] ++ B := by
  obtain ⟨ha, hb, ht⟩ := prepare_success o ctx hp h1 h2 h3 h4
  obtain ⟨-, -, ht2⟩ := prepare_success o { ctx with reset_gpio := true } hp h1 h2 h3 h4
  simp only [hr, Bool.false_eq_true, if_false, List.nil_append] at ht
  simp only [if_true] at ht2
  refine ⟨?_, ha, by rw [hb], _, _, rfl, rfl, ?_, ?_⟩
  · rw [ht]
    decide
  · rw [ht]
    simp
  · rw [ht2]
    simp

theorem prepare_without_reset_witness :
    (∀ x ∈ ops (ili9488_prepare allOk (probed false)).trace, x.isReset = false) ∧
    (ili9488_prepare allOk (probed false)).ret = 0 :=
  have h := prepare_without_reset allOk (probed false) rfl rfl (by decide) (by decide)
    (fun _ _ => le_refl (0 : Int)) (by decide)
  ⟨h.1, h.2.1⟩

/-- C16: with a reset line and `prepared` clear, when every checked step
succeeds `ili9488_prepare` makes exactly the calls reset(0), reset(1), delay 20,
supply-enable, delay 120, reset(0), delay 20, exit-sleep-mode, the fourteen
init writes, display-on, delay 50, returns 0 and sets `prepared`; the delays
are 20, 120, 20 and 50 in this order, the last reset call is the release
reset(0) right after the 120 delay (the line having been asserted before it),
and `prepared` is set in no run that did not make all of these calls. -/
theorem prepare_full_trace (o : Outcomes) (ctx : ili9488)
    (hr : ctx.reset_gpio = true) (hp : ctx.prepared = false)
    (h1 : 0 ≤ o.regulator_enable) (h2 : 0 ≤ o.exit_sleep_mode)
    (h3 : ∀ k, k < 13 → 0 ≤ o.write_seq k) (h4 : 0 ≤ o.set_display_on) :
    ops (ili9488_prepare o ctx).trace =
      [Op.gpiod_set_value_cansleep 0, Op.gpiod_set_value_cansleep 1, Op.mdelay 20,
       Op.regulator_enable, Op.mdelay 120, Op.gpiod_set_value_cansleep 0, Op.mdelay 20,
       Op.mipi_dsi_dcs_exit_sleep_mode] ++ (writeOps init_table ++ [invertOp]) ++
      [Op.mipi_dsi_dcs_set_display_on, Op.msleep 50] ∧
    (ili9488_prepare o ctx).ret = 0 ∧
    (ili9488_prepare o ctx).ctx.prepared = true ∧
    (ops (ili9488_prepare o ctx).trace).filterMap Op.delay? = [20, 120, 20, 50] ∧
    (∃ before after : List Op,
      ops (ili9488_prepare o ctx).trace =
        before ++ [Op.mdelay 120, Op.gpiod_set_value_cansleep 0] ++ after ∧
      before.filter Op.isReset =
        [Op.gpiod_set_value_cansleep 0, Op.gpiod_set_value_cansleep 1] ∧
      after.filter Op.isReset = []) ∧
    (∀ o2 : Outcomes, (ili9488_prepare o2 ctx).ctx.prepared = true →
      ops (ili9488_prepare o2 ctx).trace = ops (ili9488_prepare o ctx).trace) := by
  obtain ⟨ha, hb, ht⟩ := prepare_success o ctx hp h1 h2 h3 h4
  simp only [hr, if_true] at ht
  refine ⟨?_, ha, by rw [hb], ?_, ?_, ?_⟩
  · rw [ht]
    simp
  · rw [ht]
    decide
  · refine ⟨[Op.gpiod_set_value_cansleep 0, Op.gpiod_set_value_cansleep 1, Op.mdelay 20,
        Op.regulator_enable],
      [Op.mdelay 20, Op.mipi_dsi_dcs_exit_sleep_mode] ++ writeOps init_table ++
        [invertOp, Op.mipi_dsi_dcs_set_display_on, Op.msleep 50], ?_, by decide, by decide⟩
    rw [ht]
    simp
  · intro o2 hset
    have h0 := prepare_sets_prepared o2 ctx hp hset
    obtain ⟨b1, b2, b3, b4⟩ := prepare_ret_zero_outcomes o2 ctx hp h0
    obtain ⟨-, -, ht2⟩ := prepare_success o2 ctx hp b1 b2 b3 b4
    rw [ht2]
    simp only [hr, if_true]
    rw [ht]

theorem prepare_full_trace_witness :
    ops (ili9488_prepare allOk (probed true)).trace =
      [Op.gpiod_set_value_cansleep 0, Op.gpiod_set_value_cansleep 1, Op.mdelay 20,
       Op.regulator_enable, Op.mdelay 120, Op.gpiod_set_value_cansleep 0, Op.mdelay 20,
       Op.mipi_dsi_dcs_exit_sleep_mode] ++ (writeOps init_table ++ [invertOp]) ++
      [Op.mipi_dsi_dcs_set_display_on, Op.msleep 50] :=
  (prepare_full_trace allOk (probed true) rfl rfl (by decide) (by decide)
    (fun _ _ => le_refl (0 : Int)) (by decide)).1

/-- C17: when `ili9488_unprepare` starts with `prepared` set and the display-off
command, or after it the enter-sleep-mode command, returns a non-zero value,
`ili9488_unprepare` returns that value and leaves the context as it was
(`prepared` still set, `enabled` unchanged); a following `ili9488_unprepare` is
therefore not a no-op: whatever its collaborators answer, its first call is
display-off again. -/
theorem unprepare_failure_retry (o o2 : Outcomes) (ctx : ili9488)
    (hp : ctx.prepared = true)
    (hf : o.set_display_off ≠ 0 ∨ o.enter_sleep_mode ≠ 0) :
    (ili9488_unprepare o ctx).ret =
      (if o.set_display_off ≠ 0 then o.set_display_off else o.enter_sleep_mode) ∧
    (ili9488_unprepare o ctx).ret ≠ 0 ∧
    (ili9488_unprepare o ctx).ctx = ctx ∧
    (ili9488_unprepare o ctx).ctx.prepared = true ∧
    (ili9488_unprepare o ctx).ctx.enabled = ctx.enabled ∧
    (ops (ili9488_unprepare o2 (ili9488_unprepare o ctx).ctx).trace).head? =
      some Op.mipi_dsi_dcs_set_display_off := by
  have hc : (ili9488_unprepare o ctx).ctx = ctx := by
    by_cases h1 : o.set_display_off = 0
    · have h2 : o.enter_sleep_mode ≠ 0 := by
        rcases hf with h | h
        · exact absurd h1 h
        · exact h
      simp [ili9488_unprepare, hp, h1, h2]
    · simp [ili9488_unprepare, hp, h1]
  have hhead : ∀ c : ili9488, c.prepared = true →
      (ops (ili9488_unprepare o2 c).trace).head? = some Op.mipi_dsi_dcs_set_display_off := by
    intro c hcp
    by_cases g1 : o2.set_display_off = 0
    · by_cases g2 : o2.enter_sleep_mode = 0
      · simp [ili9488_unprepare, hcp, g1, g2, ops]
      · simp [ili9488_unprepare, hcp, g1, g2, ops]
    · simp [ili9488_unprepare, hcp, g1, ops]
  refine ⟨?_, ?_, hc, by rw [hc]; exact hp, by rw [hc], by rw [hc]; exact hhead ctx hp⟩
  · by_cases h1 : o.set_display_off = 0
    · by_cases h2 : o.enter_sleep_mode = 0
      · rcases hf with h | h
        · exact absurd h1 h
        · exact absurd h2 h
      · simp [ili9488_unprepare, hp, h1, h2]
    · simp [ili9488_unprepare, hp, h1]
  · by_cases h1 : o.set_display_off = 0
    · by_cases h2 : o.enter_sleep_mode = 0
      · rcases hf with h | h
        · exact absurd h1 h
        · exact absurd h2 h
      · simp [ili9488_unprepare, hp, h1, h2]
    · simp [ili9488_unprepare, hp, h1]

theorem unprepare_failure_retry_witness :
    (ili9488_unprepare enterSleepFails ⟨true, true, true⟩).ret = -5 ∧
    (ili9488_unprepare enterSleepFails ⟨true, true, true⟩).ctx = ⟨true, true, true⟩ ∧
    (ops (ili9488_unprepare allOk
      (ili9488_unprepare enterSleepFails ⟨true, true, true⟩).ctx).trace).head? =
      some Op.mipi_dsi_dcs_set_display_off :=
  have h := unprepare_failure_retry enterSleepFails allOk ⟨true, true, true⟩ rfl
    (Or.inr (by decide))
  ⟨h.1, h.2.2.1, h.2.2.2.2.2⟩

/-! ## Abort at the first failing step -/

/-- C18: for every finite sequence of callbacks from the probed context, with
arbitrary collaborator outcomes, after any number `n` of events of the trace
the supply disables are at most the successful supply enables, and whenever
`prepared` is set at the end of the sequence the successful enables exceed the
disables by at least one. -/
theorem supply_never_overdisabled (calls : List (Callback × Outcomes)) (reset_gpio : Bool)
    (n : Nat) :
    supplyOff ((runTrace calls (probed reset_gpio)).take n) ≤
      supplyOn ((runTrace calls (probed reset_gpio)).take n) ∧
    ((run calls (probed reset_gpio)).prepared = true →
      supplyOff (runTrace calls (probed reset_gpio)) + 1 ≤
        supplyOn (runTrace calls (probed reset_gpio))) := by
  obtain ⟨h1, h2⟩ := run_supply calls (probed reset_gpio) 0 0 (by simp [flag, probed])
  constructor
  · have := h1 n
    omega
  · intro hp
    rw [hp] at h2
    simp only [flag, if_true] at h2
    omega

theorem supply_never_overdisabled_witness :
    supplyOff (runTrace [(Callback.prepare, exitSleepFails), (Callback.prepare, allOk),
        (Callback.unprepare, allOk), (Callback.prepare, allOk)] (probed true)) + 1 ≤
      supplyOn (runTrace [(Callback.prepare, exitSleepFails), (Callback.prepare, allOk),
        (Callback.unprepare, allOk), (Callback.prepare, allOk)] (probed true)) :=
  (supply_never_overdisabled [(Callback.prepare, exitSleepFails), (Callback.prepare, allOk),
    (Callback.unprepare, allOk), (Callback.prepare, allOk)] true 0).2 (by decide)

/-- C19: for every finite sequence of callbacks from the probed context the
backlight calls of the trace strictly alternate, beginning with
`backlight_enable`, and after the sequence the number of `backlight_enable`
calls is the number of `backlight_disable` calls plus one if `enabled` is set
and plus zero if it is clear; in particular a probed panel that is prepared and
then enabled one or more times has exactly one `backlight_enable` in its
trace. -/
theorem backlight_alternates (calls : List (Callback × Outcomes)) (reset_gpio : Bool)
    (o o2 : Outcomes) (n : Nat) :
    alternates false (backlightOps (runTrace calls (probed reset_gpio))) = true ∧
    (ops (runTrace calls (probed reset_gpio))).count Op.backlight_enable =
      (ops (runTrace calls (probed reset_gpio))).count Op.backlight_disable +
        flag (run calls (probed reset_gpio)).enabled ∧
    (ops (runTrace ((Callback.prepare, o) :: List.replicate (n + 1) (Callback.enable, o2))
      (probed reset_gpio))).count Op.backlight_enable = 1 := by
  obtain ⟨h1, h2⟩ := run_backlight calls (probed reset_gpio)
  have hon : ∀ t : List Event,
      (ops t).count Op.backlight_enable = (backlightOps t).count Op.backlight_enable :=
    fun t => (List.count_filter (by rfl)).symm
  have hoff : ∀ t : List Event,
      (ops t).count Op.backlight_disable = (backlightOps t).count Op.backlight_disable :=
    fun t => (List.count_filter (by rfl)).symm
  refine ⟨h1, ?_, ?_⟩
  · rw [hon, hoff]
    simpa [flag, probed] using h2
  · have he : (ili9488_prepare o (probed reset_gpio)).ctx.enabled = false := by
      rw [prepare_enabled]
      rfl
    have hrt : runTrace
        ((Callback.prepare, o) :: List.replicate (n + 1) (Callback.enable, o2))
        (probed reset_gpio) =
        (ili9488_prepare o (probed reset_gpio)).trace ++
          runTrace (List.replicate (n + 1) (Callback.enable, o2))
            (ili9488_prepare o (probed reset_gpio)).ctx := rfl
    rw [hon, hrt, run_enable_fresh n o2 _ he, backlightOps_append, prepare_backlightOps]
    rfl

end Ili9488
